import Mathlib

/-
Verification development for the greenhouse geometry / quantity-estimation
engine (services/geometry/* and services/estimator.py).

Modelling conventions:
- Python floats are modelled as exact rationals (ℚ); float rounding noise is
  out of scope, the formulas are modelled over exact arithmetic.
- Python operations that can raise ZeroDivisionError are modelled in the
  Except monad (PyErr); functions whose divisions are all guarded by the
  source are modelled as total functions returning Option.
- math.hypot (irrational in general) is modelled as an oracle parameter
  "len : Point → Point → ℚ" passed to every function that builds segments;
  theorems quantify over the oracle, witnesses instantiate it with a
  function that agrees with hypot on the axis-aligned segments they use.
- Angle comparisons: the source computes angle = atan2(dy, dx) in degrees,
  normalised to [-180, 180], and only ever compares it against thresholds.
  For the 45/135 degree split, abs(angle) <= 45 or abs(angle) >= 135 is
  exactly equivalent to abs(dy) <= abs(dx) (also at the degenerate point
  dx = dy = 0 where atan2 yields 0), which is how the classifier is
  embedded.  For the 10 degree regularity tolerance of the koutelou
  estimator the equivalent slope test is abs(dy) <= tan(10 deg) * abs(dx);
  tan(10 deg) is irrational, so it is a parameter tanTol of the embedding
  (the source likewise takes angle_tolerance as a defaulted parameter).
-/

namespace Greenhouse

unseal Rat.mul Rat.inv Rat.add Rat.sub

/-- Error raised by Python division by zero. -/
inductive PyErr where
  | zeroDivision
deriving DecidableEq, Repr

/-- Python float true division: raises ZeroDivisionError on zero divisor. -/
def pydiv (a b : ℚ) : Except PyErr ℚ :=
  if b = 0 then .error .zeroDivision else .ok (a / b)

/-- Python float floor division composed with int(): raises on zero divisor. -/
def pyFloorDiv (a b : ℚ) : Except PyErr ℤ :=
  if b = 0 then .error .zeroDivision else .ok ⌊a / b⌋

/-- Python int() applied to a float: truncation toward zero. -/
def pyTrunc (x : ℚ) : ℤ :=
  if 0 ≤ x then ⌊x⌋ else ⌈x⌉

/-- Python round() to the nearest integer, ties to the even integer. -/
def pyRound (x : ℚ) : ℤ :=
  let f := ⌊x⌋
  let r := x - (f : ℚ)
  if r < 1/2 then f
  else if (1:ℚ)/2 < r then f + 1
  else if 2 ∣ f then f else f + 1

/-- Python round(x, 2): round to 2 decimal places, ties to even. -/
def pyRound2 (x : ℚ) : ℚ :=
  (pyRound (100 * x) : ℚ) / 100

/-- Python min() over a list of floats (only ever called on nonempty lists;
the value on [] is an arbitrary total-function default). -/
def qmin : List ℚ → ℚ
  | [] => 0
  | x :: xs => xs.foldl min x

/-- Python max() over a list of floats (only ever called on nonempty lists). -/
def qmax : List ℚ → ℚ
  | [] => 0
  | x :: xs => xs.foldl max x

/-- Python sum(l)/len(l): the mean of a list (only called on nonempty lists). -/
def qavg (l : List ℚ) : ℚ :=
  l.sum / (l.length : ℚ)

/-- A planar point in scene (pixel) coordinates, y growing downward. -/
abbrev Point := ℚ × ℚ

/-- A polygon edge as built by segment_analysis._build_segments: the two
endpoints, the midpoint and the hypot length.  The angle entry of the source
dict is not stored: every use of it in the source is a threshold comparison,
embedded as the equivalent exact slope test on (dx, dy). -/
structure Seg where
  p1 : Point
  p2 : Point
  midpoint : Point
  length : ℚ
deriving DecidableEq, Repr

/-- Build one segment from consecutive vertices (len is the hypot oracle). -/
def mkSeg (len : Point → Point → ℚ) (p q : Point) : Seg :=
  ⟨p, q, ((p.1 + q.1) / 2, (p.2 + q.2) / 2), len p q⟩

/-- Close the polygon if open: append the first vertex when it differs from
the last one (source: if pts[0] != pts[-1]: pts.append(pts[0])). -/
def closeRing : List Point → List Point
  | [] => []
  | p :: rest =>
    if (p :: rest).getLastD p = p then p :: rest else (p :: rest) ++ [p]

/-- segment_analysis._build_segments: close the ring, one segment per
consecutive vertex pair. -/
def buildSegments (len : Point → Point → ℚ) (pts : List Point) : List Seg :=
  if pts.length < 2 then []
  else
    let closed := closeRing pts
    List.zipWith (mkSeg len) closed closed.tail

def segDx (s : Seg) : ℚ := s.p2.1 - s.p1.1

def segDy (s : Seg) : ℚ := s.p2.2 - s.p1.2

/-- abs(angle) <= 45 or abs(angle) >= 135 for angle = atan2(dy, dx):
exactly equivalent to abs(dy) <= abs(dx). -/
def isHorizontalSeg (s : Seg) : Bool :=
  |segDy s| ≤ |segDx s|

/-- The four facade orientation groups (Boreia / Notia / Anatoliki / Dytiki). -/
inductive Facade where
  | north | south | east | west
deriving DecidableEq, Repr

/-- Classification of one segment relative to the bounding-box center:
horizontal segments split on midpoint.y <= y_center (north above, south
below, screen coordinates), vertical ones on midpoint.x >= x_center
(east right, west left). -/
def facadeOf (xc yc : ℚ) (s : Seg) : Facade :=
  if isHorizontalSeg s then
    if s.midpoint.2 ≤ yc then .north else .south
  else
    if xc ≤ s.midpoint.1 then .east else .west

/-- The four facade segment lists. -/
structure FacadeGroups where
  north : List Seg
  south : List Seg
  east : List Seg
  west : List Seg
deriving DecidableEq, Repr

def emptyGroups : FacadeGroups := ⟨[], [], [], []⟩

/-- segment_analysis.group_facade_segments: classify every edge of the
(implicitly closed) polygon into exactly one facade group.  The source loop
appends each segment to the list of its class in order, which equals
filtering the segment list by each class. -/
def group_facade_segments (len : Point → Point → ℚ) (pts : List Point) :
    FacadeGroups :=
  if pts.length < 3 then emptyGroups
  else
    let segs := buildSegments len pts
    if segs.isEmpty then emptyGroups
    else
      let xs := pts.map Prod.fst
      let ys := pts.map Prod.snd
      let xc := (qmin xs + qmax xs) / 2
      let yc := (qmin ys + qmax ys) / 2
      ⟨segs.filter fun s => decide (facadeOf xc yc s = Facade.north),
       segs.filter fun s => decide (facadeOf xc yc s = Facade.south),
       segs.filter fun s => decide (facadeOf xc yc s = Facade.east),
       segs.filter fun s => decide (facadeOf xc yc s = Facade.west)⟩

/-- All endpoints of a list of segments, in order (p1 then p2 per segment),
as collected by the estimators before taking min/max/average. -/
def segEndpoints (segs : List Seg) : List Point :=
  segs.flatMap fun s => [s.p1, s.p2]

/-- Result dict of post_estimation.estimate_triangle_posts_3x5_with_sides
(the notes string, pure presentation, is not modelled). -/
structure PostResult where
  grid_w_m : ℚ
  grid_h_m : ℚ
  scale_factor : ℚ
  rows : ℤ
  full_triangles_per_row : ℤ
  has_half_triangle_per_row : Bool
  low_posts_per_row : ℤ
  tall_posts_per_row : ℤ
  total_low_posts : ℤ
  total_tall_posts : ℤ
  north_width_m : ℚ
  depth_m : ℚ
deriving DecidableEq, Repr

/-- post_estimation.estimate_triangle_posts_3x5_with_sides: rectangular fast
path.  find_north_south_chains is group_facade_segments under legacy keys.
All divisions are guarded by the source (grid_w_px, grid_h_px positive;
scale_factor division guarded by "if scale_factor"), so the embedding is a
total function into Option. -/
def estimate_triangle_posts_3x5_with_sides (len : Point → Point → ℚ)
    (pts : List Point) (grid_w_m grid_h_m scale_factor : ℚ) :
    Option PostResult :=
  if pts.length < 3 then none
  else
    let g := group_facade_segments len pts
    if g.north.isEmpty || g.south.isEmpty then none
    else
      let npts := segEndpoints g.north
      let nx1 := qmin (npts.map Prod.fst)
      let nx2 := qmax (npts.map Prod.fst)
      let north_y := qavg (npts.map Prod.snd)
      let width_px := max 0 (nx2 - nx1)
      let spts := segEndpoints g.south
      let south_y := qavg (spts.map Prod.snd)
      let grid_w_px := grid_w_m * scale_factor
      let grid_h_px := grid_h_m * scale_factor
      if grid_w_px ≤ 0 ∨ grid_h_px ≤ 0 then none
      else
        let module_px := 1 * grid_w_px
        let n_full : ℤ := ⌊width_px / module_px⌋
        let rem := width_px - (n_full : ℚ) * module_px
        let has_half : Bool := decide ((1:ℚ)/2 * grid_w_px - 1/1000000 ≤ rem)
        let tall_per_row := n_full + (if has_half then 1 else 0)
        let low_per_row := n_full + 1
        let height_px := max 0 (south_y - north_y)
        let n_rows := max 0 ⌊height_px / grid_h_px⌋ + 1
        some { grid_w_m := grid_w_m, grid_h_m := grid_h_m,
               scale_factor := scale_factor, rows := n_rows,
               full_triangles_per_row := n_full,
               has_half_triangle_per_row := has_half,
               low_posts_per_row := low_per_row,
               tall_posts_per_row := tall_per_row,
               total_low_posts := low_per_row * n_rows,
               total_tall_posts := tall_per_row * n_rows,
               north_width_m :=
                 if scale_factor = 0 then 0 else width_px / scale_factor,
               depth_m :=
                 if scale_factor = 0 then 0 else height_px / scale_factor }

/-- Result dict of estimate_triangle_posts_3x5_with_sides_per_row. -/
structure PerRowPostResult where
  grid_w_m : ℚ
  grid_h_m : ℚ
  scale_factor : ℚ
  rows : ℤ
  total_low_posts : ℤ
  total_tall_posts : ℤ
  north_width_m : ℚ
  depth_m : ℚ
deriving DecidableEq, Repr

/-- One span of the inner per-span loop of the per-row scan: add the low
and tall post contributions of one horizontal span to the accumulator
(row_low, row_tall). -/
def spanStep (grid_w_px module_px : ℚ) (acc : ℤ × ℤ) (span_len : ℚ) :
    ℤ × ℤ :=
  let n_full : ℤ := ⌊span_len / module_px⌋
  let rem := span_len - (n_full : ℚ) * module_px
  let has_half : Bool := decide ((1:ℚ)/2 * grid_w_px - 1/1000000 ≤ rem)
  (acc.1 + (n_full + 1), acc.2 + (n_full + (if has_half then 1 else 0)))

/-- Inner per-span loop of the per-row scan: fold the (low, tall)
contributions of each horizontal span of one grid row. -/
def spanCounts (grid_w_px module_px : ℚ) (spans : List ℚ) : ℤ × ℤ :=
  spans.foldl (spanStep grid_w_px module_px) (0, 0)

/-- One grid row of the per-row scan: collect the positive-length spans of
the row at height y from the span oracle and add their post counts to the
running (total_low, total_tall) accumulator. -/
def rowStep (spanOracle : ℚ → List ℚ) (grid_w_px module_px : ℚ)
    (acc : ℤ × ℤ) (y : ℚ) : ℤ × ℤ :=
  let spans := (spanOracle y).filter fun l => decide (0 < l)
  let rc := spanCounts grid_w_px module_px spans
  (acc.1 + rc.1, acc.2 + rc.2)

/-- post_estimation.estimate_triangle_posts_3x5_with_sides_per_row.  The
shapely intersection of the (repaired) polygon with the horizontal line of
each grid row is external geometry; it is modelled by the oracle spanOracle,
mapping a row y-coordinate to the lengths of the LineString components of
the intersection.  The source keeps only components with positive length,
hence the filter. -/
def estimate_triangle_posts_3x5_with_sides_per_row (len : Point → Point → ℚ)
    (spanOracle : ℚ → List ℚ) (pts : List Point)
    (grid_w_m grid_h_m scale_factor : ℚ) : Option PerRowPostResult :=
  if pts.length < 3 then none
  else
    let g := group_facade_segments len pts
    if g.north.isEmpty || g.south.isEmpty then none
    else
      let npts := segEndpoints g.north
      let nx1 := qmin (npts.map Prod.fst)
      let nx2 := qmax (npts.map Prod.fst)
      let north_y := qavg (npts.map Prod.snd)
      let south_y := qavg ((segEndpoints g.south).map Prod.snd)
      let grid_w_px := grid_w_m * scale_factor
      let grid_h_px := grid_h_m * scale_factor
      if grid_w_px ≤ 0 ∨ grid_h_px ≤ 0 then none
      else
        let module_px := 1 * grid_w_px
        let height_px := max 0 (south_y - north_y)
        let n_rows := max 0 ⌊height_px / grid_h_px⌋ + 1
        let rowYs := (List.range n_rows.toNat).map
          fun k => north_y + (k : ℚ) * grid_h_px
        let totals := rowYs.foldl (rowStep spanOracle grid_w_px module_px)
          ((0 : ℤ), (0 : ℤ))
        some { grid_w_m := grid_w_m, grid_h_m := grid_h_m,
               scale_factor := scale_factor, rows := n_rows,
               total_low_posts := totals.1,
               total_tall_posts := totals.2,
               north_width_m :=
                 if scale_factor = 0 then 0 else |nx2 - nx1| / scale_factor,
               depth_m :=
                 if scale_factor = 0 then 0 else height_px / scale_factor }

/-- Result dict of gutter_estimation.estimate_gutters_length (notes string
not modelled). -/
structure GutterResult where
  grid_w_m : ℚ
  grid_h_m : ℚ
  scale_factor : ℚ
  north_width_m : ℚ
  depth_m : ℚ
  module_w_m : ℚ
  n_full_modules : ℤ
  lines_x : ℤ
  piece_len_m : ℚ
  pieces_per_line : ℤ
  total_pieces : ℤ
deriving DecidableEq, Repr

/-- geometry/gutter_estimation.estimate_gutters_length (the current
1-grid-width-module revision; the superseded geometry_utils.py copy uses a
2-grid-width module).  The source also computes south_length, unused.  All
divisions are guarded, so the embedding is total into Option. -/
def estimate_gutters_length (len : Point → Point → ℚ) (pts : List Point)
    (grid_w_m grid_h_m scale_factor : ℚ) : Option GutterResult :=
  if pts.length < 3 then none
  else
    let g := group_facade_segments len pts
    if g.north.isEmpty || g.south.isEmpty then none
    else
      let north_length := (g.north.map fun s => s.length).sum
      let north_y := qavg ((segEndpoints g.north).map Prod.snd)
      let south_y := qavg ((segEndpoints g.south).map Prod.snd)
      let depth_px := max 0 (south_y - north_y)
      if scale_factor ≤ 0 then none
      else
        let width_m := north_length / scale_factor
        let depth_m := depth_px / scale_factor
        let module_w_m := 1 * grid_w_m
        if module_w_m ≤ 0 ∨ grid_h_m ≤ 0 then none
        else
          let n_full : ℤ := ⌊width_m / module_w_m⌋
          let lines_x := max 2 (n_full + 1)
          let piece_len_m := grid_h_m
          let pieces_per_line : ℤ :=
            if 0 < piece_len_m then ⌈depth_m / piece_len_m⌉ else 0
          some { grid_w_m := grid_w_m, grid_h_m := grid_h_m,
                 scale_factor := scale_factor,
                 north_width_m := width_m, depth_m := depth_m,
                 module_w_m := module_w_m, n_full_modules := n_full,
                 lines_x := lines_x, piece_len_m := piece_len_m,
                 pieces_per_line := pieces_per_line,
                 total_pieces := lines_x * pieces_per_line }

/-- Result dict of koutelou_estimation.estimate_koutelou_pairs.  The source
zero-result dict omits the total_pyramids key; it is modelled as 0 there.
The grid echo keys and the notes string are not modelled. -/
structure KoutelouResult where
  total_pairs : ℤ
  north_pyramids : ℤ
  south_pyramids : ℤ
  total_pyramids : ℤ
  is_regular : Bool
  pipe_length_m : ℚ
deriving DecidableEq, Repr

/-- The inner is_segment_regular of the koutelou estimator: angle within
tolerance of 0 or 180 degrees.  For a tolerance t in (0, 90) this is exactly
abs(dy) <= tan(t deg) * abs(dx); tanTol stands for tan(10 deg). -/
def is_segment_regular (tanTol : ℚ) (s : Seg) : Bool :=
  |segDy s| ≤ tanTol * |segDx s|

/-- The inner count_pyramids_in_segments of the koutelou estimator: all
member segments must be regular, then the pyramid count is
round(total_length / grid_w_px). -/
def count_pyramids_in_segments (tanTol grid_w_px : ℚ) (segs : List Seg) :
    ℤ × Bool :=
  if segs.isEmpty then (0, false)
  else if segs.all (is_segment_regular tanTol) then
    (pyRound ((segs.map fun s => s.length).sum / grid_w_px), true)
  else (0, false)

/-- koutelou_estimation.estimate_koutelou_pairs.  The source's
"if not groups" guard never fires (the dict always has its four keys) and is
dropped.  The round division is guarded by grid_w_px > 0, so the embedding
is total into Option. -/
def estimate_koutelou_pairs (tanTol : ℚ) (len : Point → Point → ℚ)
    (pts : List Point) (grid_w_m grid_h_m scale_factor pipe_length_m : ℚ) :
    Option KoutelouResult :=
  if pts.length < 3 then none
  else
    let g := group_facade_segments len pts
    if g.north.isEmpty || g.south.isEmpty then none
    else
      let grid_w_px := grid_w_m * scale_factor
      if grid_w_px ≤ 0 then none
      else
        let nc := count_pyramids_in_segments tanTol grid_w_px g.north
        let sc := count_pyramids_in_segments tanTol grid_w_px g.south
        if nc.2 && sc.2 then
          some { total_pairs := (nc.1 + sc.1) * 2,
                 north_pyramids := nc.1, south_pyramids := sc.1,
                 total_pyramids := nc.1 + sc.1, is_regular := true,
                 pipe_length_m := pipe_length_m }
        else
          some { total_pairs := 0, north_pyramids := 0, south_pyramids := 0,
                 total_pyramids := 0, is_regular := false,
                 pipe_length_m := pipe_length_m }

/-- Result dict of plevra_estimation.estimate_plevra (notes string not
modelled). -/
structure PlevraResult where
  total_plevra : ℤ
  num_pyramids : ℤ
  plevra_per_pyramid : ℤ
  pipe_length_m : ℚ
  width_m : ℚ
  depth_m : ℚ
  usable_depth_m : ℚ
  first_offset_m : ℚ
  spacing_m : ℚ
deriving DecidableEq, Repr

/-- plevra_estimation.estimate_plevra.  The division usable_depth_m /
spacing_m is unguarded in the source (ZeroDivisionError at spacing_m = 0),
hence the Except result. -/
def estimate_plevra (len : Point → Point → ℚ) (pts : List Point)
    (grid_w_m grid_h_m scale_factor pipe_length_m first_offset_m
     spacing_m : ℚ) : Except PyErr (Option PlevraResult) :=
  if pts.length < 3 then .ok none
  else
    let g := group_facade_segments len pts
    if g.north.isEmpty || g.south.isEmpty then .ok none
    else if scale_factor ≤ 0 then .ok none
    else
      let npts := segEndpoints g.north
      let width_px := qmax (npts.map Prod.fst) - qmin (npts.map Prod.fst)
      let north_y := qavg (npts.map Prod.snd)
      let south_y := qavg ((segEndpoints g.south).map Prod.snd)
      let depth_px := |south_y - north_y|
      let width_m := width_px / scale_factor
      let depth_m := depth_px / scale_factor
      let grid_w_px := grid_w_m * scale_factor
      if grid_w_px ≤ 0 then .ok none
      else
        let num_pyramids := pyRound (width_px / grid_w_px)
        if num_pyramids = 0 then
          .ok (some { total_plevra := 0, num_pyramids := 0,
                      plevra_per_pyramid := 0,
                      pipe_length_m := pipe_length_m, width_m := width_m,
                      depth_m := depth_m, usable_depth_m := 0,
                      first_offset_m := first_offset_m,
                      spacing_m := spacing_m })
        else
          let usable_depth_m := depth_m - 2 * first_offset_m
          if usable_depth_m ≤ 0 then
            .ok (some { total_plevra := 0, num_pyramids := num_pyramids,
                        plevra_per_pyramid := 0,
                        pipe_length_m := pipe_length_m, width_m := width_m,
                        depth_m := depth_m, usable_depth_m := usable_depth_m,
                        first_offset_m := first_offset_m,
                        spacing_m := spacing_m })
          else
            match pydiv usable_depth_m spacing_m with
            | .error e => .error e
            | .ok ratio =>
              let per := ⌊ratio⌋ + 1
              .ok (some { total_plevra := num_pyramids * per,
                          num_pyramids := num_pyramids,
                          plevra_per_pyramid := per,
                          pipe_length_m := pipe_length_m, width_m := width_m,
                          depth_m := depth_m,
                          usable_depth_m := usable_depth_m,
                          first_offset_m := first_offset_m,
                          spacing_m := spacing_m })

/-- Result dict of cultivation_pipes_estimation.estimate_cultivation_pipes.
The source stores total_meters, width_m, depth_m rounded to 2 decimals
(round(x, 2)); num_lines is an int, on which round(n, 2) is the identity. -/
structure PipesResult where
  total_pipes : ℤ
  total_meters : ℚ
  num_lines : ℤ
  width_m : ℚ
  depth_m : ℚ
  pipe_length_m : ℚ
  left_pieces : ℤ
  middle_pieces : ℤ
  right_pieces : ℤ
  grid_h_m : ℚ
  grid_w_m : ℚ
  scale_factor : ℚ
deriving DecidableEq, Repr

/-- cultivation_pipes_estimation.estimate_cultivation_pipes.  The divisions
width_px / scale_factor and depth_px / scale_factor happen before the
validity check and are unguarded (ZeroDivisionError at scale_factor = 0),
hence the Except result. -/
def estimate_cultivation_pipes (pts : List Point)
    (grid_w_m grid_h_m scale_factor pipe_length_m : ℚ) :
    Except PyErr (Option PipesResult) :=
  if pts.length < 3 then .ok none
  else
    let closed := closeRing pts
    let xs := closed.map Prod.fst
    let ys := closed.map Prod.snd
    let width_px := qmax xs - qmin xs
    let depth_px := qmax ys - qmin ys
    match pydiv width_px scale_factor, pydiv depth_px scale_factor with
    | .error e, _ => .error e
    | .ok _, .error e => .error e
    | .ok width_m, .ok depth_m =>
      if width_m ≤ 0 ∨ depth_m ≤ 0 ∨ grid_h_m ≤ 0 ∨ pipe_length_m ≤ 0 then
        .ok none
      else
        let num_lines := pyTrunc (depth_m / grid_h_m) + 1
        let total_meters := (num_lines : ℚ) * width_m
        let total_pieces := ⌈total_meters / pipe_length_m⌉
        let left_pieces := pyRound ((total_pieces : ℚ) / 4)
        let right_pieces := pyRound ((total_pieces : ℚ) / 4)
        let middle_pieces := total_pieces - left_pieces - right_pieces
        .ok (some { total_pipes := total_pieces,
                    total_meters := pyRound2 total_meters,
                    num_lines := num_lines,
                    width_m := pyRound2 width_m,
                    depth_m := pyRound2 depth_m,
                    pipe_length_m := pipe_length_m,
                    left_pieces := left_pieces,
                    middle_pieces := middle_pieces,
                    right_pieces := right_pieces,
                    grid_h_m := grid_h_m, grid_w_m := grid_w_m,
                    scale_factor := scale_factor })

/-- The integer scan range range(lo, hi) of the grid-coverage loop. -/
def intRange (lo hi : ℤ) : List ℤ :=
  (List.range (hi - lo).toNat).map fun (k : ℕ) => lo + (k : ℤ)

/-- One partial-cell record of polygon_coverage.compute_grid_coverage: the
grid index and the intersection area in square meters.  The source record
also carries boundary-length diagnostics and the raw intersection shape; no
claim touches those fields and the rectangle-restricted model omits them. -/
structure PartialCell where
  grid : ℤ × ℤ
  area_m2 : ℚ
deriving DecidableEq, Repr

/-- Result dict of polygon_coverage.compute_grid_coverage. -/
structure Coverage where
  polygon_area_m2 : ℚ
  polygon_area_px2 : ℚ
  scale_factor : ℚ
  full_count : ℕ
  full_area_m2 : ℚ
  partial_details : List PartialCell
deriving DecidableEq, Repr

/-- Shapely semantics of one scan cell against an axis-aligned rectangle
polygon [minx, maxx] x [miny, maxy]: the cell shapely_box(x0, y0, x0+gw,
y0+gh) as a point set is the normalised box, the intersection of the two
boxes has width ow and height oh below, it is empty iff ow < 0 or oh < 0
(touching boxes meet in a zero-area segment or point, which is non-empty),
and its area is max(0, ow) * max(0, oh). -/
def cellOverlapW (minx maxx grid_w : ℚ) (gx : ℤ) : ℚ :=
  min maxx (max ((gx : ℚ) * grid_w) ((gx : ℚ) * grid_w + grid_w))
    - max minx (min ((gx : ℚ) * grid_w) ((gx : ℚ) * grid_w + grid_w))

/-- inter.equals(cell): the intersection point set equals the cell point
set, i.e. the cell box is contained in the rectangle (nonempty overlap with
both overlap intervals equal to the cell intervals). -/
def cellIsFull (minx maxx miny maxy grid_w grid_h : ℚ) (c : ℤ × ℤ) : Bool :=
  let cx0 := min ((c.1 : ℚ) * grid_w) ((c.1 : ℚ) * grid_w + grid_w)
  let cx1 := max ((c.1 : ℚ) * grid_w) ((c.1 : ℚ) * grid_w + grid_w)
  let cy0 := min ((c.2 : ℚ) * grid_h) ((c.2 : ℚ) * grid_h + grid_h)
  let cy1 := max ((c.2 : ℚ) * grid_h) ((c.2 : ℚ) * grid_h + grid_h)
  decide (max minx cx0 = cx0 ∧ min maxx cx1 = cx1 ∧
          max miny cy0 = cy0 ∧ min maxy cy1 = cy1)

/-- The partial-branch of the scan loop: skip empty intersections, skip full
cells, skip intersections with area at most max(1e-6, 1e-6 * cell_area),
otherwise record the cell. -/
def cellPartialRec (minx maxx miny maxy grid_w grid_h scale_factor : ℚ)
    (c : ℤ × ℤ) : Option PartialCell :=
  let ow := cellOverlapW minx maxx grid_w c.1
  let oh := cellOverlapW miny maxy grid_h c.2
  if ow < 0 ∨ oh < 0 then none
  else if cellIsFull minx maxx miny maxy grid_w grid_h c then none
  else
    let interArea := max 0 ow * max 0 oh
    let cellArea := |grid_w| * |grid_h|
    if interArea ≤ max ((1:ℚ)/1000000) ((1:ℚ)/1000000 * cellArea) then none
    else
      some { grid := c,
             area_m2 := if scale_factor = 0 then 0
                        else interArea / (scale_factor * scale_factor) }

/-- polygon_coverage.compute_grid_coverage, restricted to an axis-aligned
rectangle polygon [(x0,y0), (x1,y0), (x1,y1), (x0,y1)] (four vertices, so
the fewer-than-3-vertices absent branch of the source is vacuous here).
The shapely operations (area, box, intersection, equals) are replaced by
their exact point-set meaning on axis-aligned boxes.  The grid index bounds
use int(min // grid) as the source does, which raises ZeroDivisionError
when the grid step is zero, hence the Except result.  full_area accumulates
cell.area once per full cell, i.e. full_count times the cell area. -/
def compute_grid_coverage_rect (x0 y0 x1 y1 : ℚ)
    (grid_w_m grid_h_m scale_factor : ℚ) : Except PyErr Coverage :=
  let minx := min x0 x1
  let maxx := max x0 x1
  let miny := min y0 y1
  let maxy := max y0 y1
  let poly_area_px2 := (maxx - minx) * (maxy - miny)
  let grid_w := grid_w_m * scale_factor
  let grid_h := grid_h_m * scale_factor
  match pyFloorDiv minx grid_w, pyFloorDiv miny grid_h,
        pyFloorDiv maxx grid_w, pyFloorDiv maxy grid_h with
  | .error e, _, _, _ => .error e
  | _, .error e, _, _ => .error e
  | _, _, .error e, _ => .error e
  | _, _, _, .error e => .error e
  | .ok fx0, .ok fy0, .ok fx1, .ok fy1 =>
    let gx0 := fx0 - 1
    let gy0 := fy0 - 1
    let gx1 := fx1 + 2
    let gy1 := fy1 + 2
    let cells := (intRange gy0 gy1).flatMap
      fun gy => (intRange gx0 gx1).map fun gx => (gx, gy)
    let full_count := cells.countP
      (cellIsFull minx maxx miny maxy grid_w grid_h)
    let full_area_px2 := (full_count : ℚ) * (|grid_w| * |grid_h|)
    .ok { polygon_area_m2 :=
            if scale_factor = 0 then 0
            else poly_area_px2 / (scale_factor * scale_factor),
          polygon_area_px2 := poly_area_px2,
          scale_factor := scale_factor,
          full_count := full_count,
          full_area_m2 :=
            if scale_factor = 0 then 0
            else full_area_px2 / (scale_factor * scale_factor),
          partial_details := cells.filterMap
            (cellPartialRec minx maxx miny maxy grid_w grid_h scale_factor) }

/-- services/models.MaterialItem. -/
structure MaterialItem where
  code : String
  name : String
  unit : String
  unit_price : ℚ
deriving DecidableEq, Repr

/-- A bill line display name: either a catalog/fallback name string, or the
annotated generic gutter label "Gutter {h}m" built by the f-string in
compute_bom (the numeric formatting is kept symbolic). -/
inductive DisplayName where
  | raw (s : String)
  | gutterLabel (grid_h_m : ℚ)
deriving DecidableEq, Repr

/-- services/models.BillLine. -/
structure BillLine where
  code : String
  name : DisplayName
  unit : String
  quantity : ℚ
  unit_price : ℚ
  total : ℚ
deriving DecidableEq, Repr

/-- services/models.BillOfMaterials. -/
structure BillOfMaterials where
  lines : List BillLine
  subtotal : ℚ
  currency : String
deriving DecidableEq, Repr

/-- The material catalog: Python dict modelled as an association list. -/
def lookupMaterial (materials : List (String × MaterialItem))
    (code : String) : Option MaterialItem :=
  (materials.find? fun kv => kv.1 == code).map Prod.snd

/-- Estimator._get_material: catalog lookup with a zero-priced fallback
using the code itself as display name. -/
def get_material (materials : List (String × MaterialItem))
    (code : String) : MaterialItem :=
  match lookupMaterial materials code with
  | none => ⟨code, code, "piece", 0⟩
  | some m => m

/-- The gutter code chosen by compute_bom from the grid height. -/
def gutterCode (grid_h_m : ℚ) : String :=
  if |grid_h_m - 3| < 1/1000000 then "gutter_3m"
  else if |grid_h_m - 4| < 1/1000000 then "gutter_4m"
  else "gutter_piece"

/-- estimator.Estimator.compute_bom: build bill lines for tall posts, low
posts and gutter pieces, each gated on a nonzero quantity (Python float
truthiness), accumulating the subtotal alongside the appends as the source
does.  The dict .get with default 0 is always populated in the typed
results, so only the None cases of the two estimate arguments remain. -/
def compute_bom (materials : List (String × MaterialItem))
    (currency : String) (posts_est : Option PostResult)
    (gutters_est : Option GutterResult) (grid_h_m : ℚ) : BillOfMaterials :=
  let st0 : List BillLine × ℚ := ([], 0)
  let st1 :=
    match posts_est with
    | none => st0
    | some p =>
      let tall_qty : ℚ := (p.total_tall_posts : ℚ)
      let low_qty : ℚ := (p.total_low_posts : ℚ)
      let a :=
        if tall_qty ≠ 0 then
          let m := get_material materials "post_tall"
          let total := tall_qty * m.unit_price
          (st0.1 ++ [(⟨m.code, .raw m.name, m.unit, tall_qty, m.unit_price,
                      total⟩ : BillLine)],
           st0.2 + total)
        else st0
      if low_qty ≠ 0 then
        let m := get_material materials "post_low"
        let total := low_qty * m.unit_price
        (a.1 ++ [(⟨m.code, .raw m.name, m.unit, low_qty, m.unit_price,
                  total⟩ : BillLine)],
         a.2 + total)
      else a
  let st2 :=
    match gutters_est with
    | none => st1
    | some gst =>
      let qty : ℚ := (gst.total_pieces : ℚ)
      if qty ≠ 0 then
        let code := gutterCode grid_h_m
        let m := get_material materials code
        let nm := if code ≠ "gutter_piece" then DisplayName.raw m.name
                  else DisplayName.gutterLabel grid_h_m
        let total := qty * m.unit_price
        (st1.1 ++ [(⟨m.code, nm, m.unit, qty, m.unit_price, total⟩ :
                    BillLine)],
         st1.2 + total)
      else st1
  ⟨st2.1, st2.2, currency⟩

/-- A concrete length oracle used by witnesses: the taxicab length, which
agrees with math.hypot on axis-aligned segments (dy = 0 or dx = 0). -/
def taxiLen (p q : Point) : ℚ := |q.1 - p.1| + |q.2 - p.2|

/-- A concrete 4 x 2 rectangle used by witnesses. -/
def demoSquare : List Point := [(0, 0), (4, 0), (4, 2), (0, 2)]

/- ------------------------------------------------------------------ -/
/- Helper lemmas                                                       -/
/- ------------------------------------------------------------------ -/

/-- Partition lemma: filtering a segment list by each of the four facade
classes and concatenating is a permutation of the list. -/
theorem filter_facade_perm (f : Seg → Facade) (l : List Seg) :
    ((l.filter fun s => decide (f s = Facade.north)) ++
     ((l.filter fun s => decide (f s = Facade.south)) ++
      ((l.filter fun s => decide (f s = Facade.east)) ++
       (l.filter fun s => decide (f s = Facade.west))))).Perm l := by
  induction l with
  | nil => simp
  | cons a l ih =>
    cases h : f a with
    | north =>
      simp only [List.filter_cons, h]
      simp only [reduceCtorEq, decide_eq_true_eq, if_true, if_false,
        ite_true, ite_false, List.cons_append, eq_self_iff_true, if_pos,
        if_neg, not_false_iff]
      exact ih.cons a
    | south =>
      simp only [List.filter_cons, h]
      simp only [reduceCtorEq, decide_eq_true_eq, if_true, if_false,
        ite_true, ite_false, List.cons_append, eq_self_iff_true, if_pos,
        if_neg, not_false_iff]
      exact List.Perm.trans List.perm_middle (ih.cons a)
    | east =>
      simp only [List.filter_cons, h]
      simp only [reduceCtorEq, decide_eq_true_eq, if_true, if_false,
        ite_true, ite_false, List.cons_append, eq_self_iff_true, if_pos,
        if_neg, not_false_iff]
      refine List.Perm.trans (List.Perm.append_left _ List.perm_middle) ?_
      exact List.Perm.trans List.perm_middle (ih.cons a)
    | west =>
      simp only [List.filter_cons, h]
      simp only [reduceCtorEq, decide_eq_true_eq, if_true, if_false,
        ite_true, ite_false, List.cons_append, eq_self_iff_true, if_pos,
        if_neg, not_false_iff]
      refine List.Perm.trans
        (List.Perm.append_left _ (List.Perm.append_left _ List.perm_middle))
        ?_
      refine List.Perm.trans (List.Perm.append_left _ List.perm_middle) ?_
      exact List.Perm.trans List.perm_middle (ih.cons a)

/-- The taxicab oracle agrees with hypot on horizontal segments. -/
theorem taxiLen_horizontal (p q : Point) (h : p.2 = q.2) :
    taxiLen p q = |q.1 - p.1| := by
  simp [taxiLen, h]

theorem isEmpty_false_of_ne_nil {α : Type} {l : List α} (h : l ≠ []) :
    l.isEmpty = false := by
  cases l with
  | nil => exact absurd rfl h
  | cons a t => rfl

/-- A nonempty facade group forces the at-least-3-vertices branch. -/
theorem not_lt_three_of_north_ne_nil {len : Point → Point → ℚ}
    {pts : List Point} (h : (group_facade_segments len pts).north ≠ []) :
    ¬ pts.length < 3 := by
  intro hlt
  exact h (by simp [group_facade_segments, hlt, emptyGroups])

/-- A segment steeper than the tolerance makes its group irregular. -/
theorem count_pyramids_not_regular {tanTol gwpx : ℚ} {segs : List Seg}
    {s : Seg} (hs : s ∈ segs) (h : tanTol * |segDx s| < |segDy s|) :
    (count_pyramids_in_segments tanTol gwpx segs).2 = false := by
  have hne : segs.isEmpty = false := by
    refine isEmpty_false_of_ne_nil ?_
    rintro rfl
    simp at hs
  have hall : segs.all (is_segment_regular tanTol) = false := by
    refine List.all_eq_false.mpr ⟨s, hs, ?_⟩
    simp [is_segment_regular, not_le.mpr h]
  unfold count_pyramids_in_segments
  simp [hne, hall]

/-- When a group is regular, its pyramid count is the rounded ratio of the
summed member lengths to the module width. -/
theorem count_pyramids_regular_val {tanTol gwpx : ℚ} {segs : List Seg}
    (h : (count_pyramids_in_segments tanTol gwpx segs).2 = true) :
    (count_pyramids_in_segments tanTol gwpx segs).1
      = pyRound ((segs.map fun s => s.length).sum / gwpx) := by
  unfold count_pyramids_in_segments at h ⊢
  by_cases he : segs.isEmpty
  · simp [he] at h
  · by_cases ha : segs.all (is_segment_regular tanTol)
    · simp [he, ha]
    · simp [he, ha] at h

/-- Every populated plevra result carries num_pyramids =
round(north x-extent / grid_w_px). -/
theorem plevra_num_pyramids_val {len : Point → Point → ℚ}
    {pts : List Point}
    {grid_w_m grid_h_m scale_factor pipe_length_m first_offset_m
     spacing_m : ℚ} {pl : PlevraResult}
    (h : estimate_plevra len pts grid_w_m grid_h_m scale_factor
          pipe_length_m first_offset_m spacing_m = .ok (some pl)) :
    pl.num_pyramids
      = pyRound
          ((qmax ((segEndpoints (group_facade_segments len pts).north).map
              Prod.fst)
            - qmin ((segEndpoints (group_facade_segments len pts).north).map
              Prod.fst))
           / (grid_w_m * scale_factor)) := by
  unfold estimate_plevra at h
  by_cases h3 : pts.length < 3
  · simp [h3] at h
  · simp only [h3, if_false, ite_false] at h
    by_cases hg : (group_facade_segments len pts).north.isEmpty
        || (group_facade_segments len pts).south.isEmpty
    · simp [hg] at h
    · simp only [hg, Bool.false_eq_true, if_false, ite_false] at h
      by_cases hs : scale_factor ≤ 0
      · simp [hs] at h
      · simp only [hs, if_false, ite_false] at h
        by_cases hw : grid_w_m * scale_factor ≤ 0
        · simp [hw] at h
        · simp only [hw, if_false, ite_false] at h
          by_cases hz : pyRound
              ((qmax ((segEndpoints
                  (group_facade_segments len pts).north).map Prod.fst)
                - qmin ((segEndpoints
                  (group_facade_segments len pts).north).map Prod.fst))
               / (grid_w_m * scale_factor)) = 0
          · simp only [hz, if_true, ite_true] at h
            cases h
            simp [hz]
          · simp only [hz, if_false, ite_false] at h
            by_cases hu : (|qavg ((segEndpoints
                  (group_facade_segments len pts).south).map Prod.snd)
                - qavg ((segEndpoints
                  (group_facade_segments len pts).north).map Prod.snd)|
                / scale_factor) - 2 * first_offset_m ≤ 0
            · simp only [hu, if_true, ite_true] at h
              cases h
              rfl
            · simp only [hu, if_false, ite_false] at h
              by_cases hsp : spacing_m = 0
              · simp [pydiv, hsp] at h
              · simp only [pydiv, hsp, if_false, ite_false] at h
                cases h
                rfl

/-- One span never contributes more tall posts than low posts. -/
theorem spanStep_snd_le_fst (g m : ℚ) (a : ℤ × ℤ) (s : ℚ)
    (h : a.2 ≤ a.1) :
    (spanStep g m a s).2 ≤ (spanStep g m a s).1 := by
  dsimp only [spanStep]
  split <;> omega

/-- The span fold preserves tall <= low. -/
theorem foldl_spanStep_snd_le_fst (g m : ℚ) (spans : List ℚ) (a : ℤ × ℤ)
    (h : a.2 ≤ a.1) :
    (spans.foldl (spanStep g m) a).2 ≤ (spans.foldl (spanStep g m) a).1 := by
  induction spans generalizing a with
  | nil => exact h
  | cons s rest ih => exact ih _ (spanStep_snd_le_fst g m a s h)

/-- One row never contributes more tall posts than low posts. -/
theorem rowStep_snd_le_fst (oracle : ℚ → List ℚ) (g m : ℚ) (a : ℤ × ℤ)
    (y : ℚ) (h : a.2 ≤ a.1) :
    (rowStep oracle g m a y).2 ≤ (rowStep oracle g m a y).1 := by
  dsimp only [rowStep]
  have := foldl_spanStep_snd_le_fst g m
    (((oracle y).filter fun l => decide (0 < l))) (0, 0) (le_refl 0)
  dsimp only [spanCounts]
  omega

/-- The row fold preserves tall <= low. -/
theorem foldl_rowStep_snd_le_fst (oracle : ℚ → List ℚ) (g m : ℚ)
    (rows : List ℚ) (a : ℤ × ℤ) (h : a.2 ≤ a.1) :
    (rows.foldl (rowStep oracle g m) a).2
      ≤ (rows.foldl (rowStep oracle g m) a).1 := by
  induction rows generalizing a with
  | nil => exact h
  | cons y rest ih => exact ih _ (rowStep_snd_le_fst oracle g m a y h)

/-- The facade groups of an axis-aligned rectangle traversed clockwise
from the top-left corner (screen coordinates): top edge North, right edge
East, bottom edge South, left edge West. -/
theorem group_facade_segments_rect (len : Point → Point → ℚ)
    (x0 y0 W D : ℚ) (hW : 0 < W) (hD : 0 < D) :
    group_facade_segments len
        [(x0, y0), (x0 + W, y0), (x0 + W, y0 + D), (x0, y0 + D)]
      = { north := [mkSeg len (x0, y0) (x0 + W, y0)],
          south := [mkSeg len (x0 + W, y0 + D) (x0, y0 + D)],
          east := [mkSeg len (x0 + W, y0) (x0 + W, y0 + D)],
          west := [mkSeg len (x0, y0 + D) (x0, y0)] } := by
  have hne : ((x0, y0 + D) : Point) ≠ (x0, y0) := by
    intro h
    have h2 := congrArg Prod.snd h
    simp only [] at h2
    linarith
  have hsegs : buildSegments len
      [(x0, y0), (x0 + W, y0), (x0 + W, y0 + D), (x0, y0 + D)]
      = [mkSeg len (x0, y0) (x0 + W, y0),
         mkSeg len (x0 + W, y0) (x0 + W, y0 + D),
         mkSeg len (x0 + W, y0 + D) (x0, y0 + D),
         mkSeg len (x0, y0 + D) (x0, y0)] := by
    simp [buildSegments, closeRing, hne, List.zipWith]
  have hxmin : qmin ([(x0, y0), (x0 + W, y0), (x0 + W, y0 + D),
      (x0, y0 + D)].map Prod.fst) = x0 := by
    simp only [List.map, qmin, List.foldl, min_def]
    split_ifs <;> linarith
  have hxmax : qmax ([(x0, y0), (x0 + W, y0), (x0 + W, y0 + D),
      (x0, y0 + D)].map Prod.fst) = x0 + W := by
    simp only [List.map, qmax, List.foldl, max_def]
    split_ifs <;> linarith
  have hymin : qmin ([(x0, y0), (x0 + W, y0), (x0 + W, y0 + D),
      (x0, y0 + D)].map Prod.snd) = y0 := by
    simp only [List.map, qmin, List.foldl, min_def]
    split_ifs <;> linarith
  have hymax : qmax ([(x0, y0), (x0 + W, y0), (x0 + W, y0 + D),
      (x0, y0 + D)].map Prod.snd) = y0 + D := by
    simp only [List.map, qmax, List.foldl, max_def]
    split_ifs <;> linarith
  have h1 : facadeOf ((x0 + (x0 + W)) / 2) ((y0 + (y0 + D)) / 2)
      (mkSeg len (x0, y0) (x0 + W, y0)) = Facade.north := by
    have hH : isHorizontalSeg (mkSeg len (x0, y0) (x0 + W, y0)) = true := by
      simp [isHorizontalSeg, mkSeg, segDx, segDy, abs_nonneg]
    simp only [facadeOf]
    rw [hH, if_pos rfl]
    simp only [mkSeg]
    rw [if_pos (by linarith)]
  have h2 : facadeOf ((x0 + (x0 + W)) / 2) ((y0 + (y0 + D)) / 2)
      (mkSeg len (x0 + W, y0) (x0 + W, y0 + D)) = Facade.east := by
    have hH : isHorizontalSeg (mkSeg len (x0 + W, y0) (x0 + W, y0 + D))
        = false := by
      simp only [isHorizontalSeg, mkSeg, segDx, segDy]
      simp only [add_sub_cancel_left, sub_self, abs_zero,
        decide_eq_false_iff_not, not_le]
      rw [abs_of_pos hD]
      exact hD
    simp only [facadeOf]
    rw [hH, if_neg (by simp)]
    simp only [mkSeg]
    rw [if_pos (by linarith)]
  have h3 : facadeOf ((x0 + (x0 + W)) / 2) ((y0 + (y0 + D)) / 2)
      (mkSeg len (x0 + W, y0 + D) (x0, y0 + D)) = Facade.south := by
    have hH : isHorizontalSeg (mkSeg len (x0 + W, y0 + D) (x0, y0 + D))
        = true := by
      simp [isHorizontalSeg, mkSeg, segDx, segDy, abs_nonneg]
    simp only [facadeOf]
    rw [hH, if_pos rfl]
    simp only [mkSeg]
    rw [if_neg (not_le.mpr (by linarith))]
  have h4 : facadeOf ((x0 + (x0 + W)) / 2) ((y0 + (y0 + D)) / 2)
      (mkSeg len (x0, y0 + D) (x0, y0)) = Facade.west := by
    have hH : isHorizontalSeg (mkSeg len (x0, y0 + D) (x0, y0))
        = false := by
      simp only [isHorizontalSeg, mkSeg, segDx, segDy]
      simp only [sub_self, abs_zero, decide_eq_false_iff_not, not_le]
      have hneg : y0 - (y0 + D) = -D := by ring
      rw [hneg, abs_neg, abs_of_pos hD]
      exact hD
    simp only [facadeOf]
    rw [hH, if_neg (by simp)]
    simp only [mkSeg]
    rw [if_neg (not_le.mpr (by linarith))]
  simp only [group_facade_segments, List.length_cons, List.length_nil]
  rw [if_neg (by omega)]
  simp only [hsegs, List.isEmpty_cons, Bool.false_eq_true, if_false,
    ite_false, hxmin, hxmax, hymin, hymax]
  simp only [List.filter, h1, h2, h3, h4, decide_eq_true_eq, reduceCtorEq,
    if_true, ite_true, if_false, ite_false]
  rfl

/-- Symbolic evaluation of the rectangular fast path on an axis-aligned
W x D rectangle with a positive grid spec. -/
theorem estimate_posts_rect (len : Point → Point → ℚ)
    (x0 y0 W D grid_w_m grid_h_m scale_factor : ℚ)
    (hW : 0 < W) (hD : 0 < D) (hgw : 0 < grid_w_m) (hgh : 0 < grid_h_m)
    (hsc : 0 < scale_factor) :
    estimate_triangle_posts_3x5_with_sides len
        [(x0, y0), (x0 + W, y0), (x0 + W, y0 + D), (x0, y0 + D)]
        grid_w_m grid_h_m scale_factor
      = some { grid_w_m := grid_w_m, grid_h_m := grid_h_m,
               scale_factor := scale_factor,
               rows := max 0 ⌊D / (grid_h_m * scale_factor)⌋ + 1,
               full_triangles_per_row :=
                 ⌊W / (1 * (grid_w_m * scale_factor))⌋,
               has_half_triangle_per_row :=
                 decide ((1:ℚ)/2 * (grid_w_m * scale_factor) - 1/1000000
                   ≤ W - (⌊W / (1 * (grid_w_m * scale_factor))⌋ : ℚ)
                       * (1 * (grid_w_m * scale_factor))),
               low_posts_per_row :=
                 ⌊W / (1 * (grid_w_m * scale_factor))⌋ + 1,
               tall_posts_per_row :=
                 ⌊W / (1 * (grid_w_m * scale_factor))⌋ +
                   (if decide ((1:ℚ)/2 * (grid_w_m * scale_factor)
                        - 1/1000000
                       ≤ W - (⌊W / (1 * (grid_w_m * scale_factor))⌋ : ℚ)
                           * (1 * (grid_w_m * scale_factor)))
                    then 1 else 0),
               total_low_posts :=
                 (⌊W / (1 * (grid_w_m * scale_factor))⌋ + 1)
                   * (max 0 ⌊D / (grid_h_m * scale_factor)⌋ + 1),
               total_tall_posts :=
                 (⌊W / (1 * (grid_w_m * scale_factor))⌋ +
                   (if decide ((1:ℚ)/2 * (grid_w_m * scale_factor)
                        - 1/1000000
                       ≤ W - (⌊W / (1 * (grid_w_m * scale_factor))⌋ : ℚ)
                           * (1 * (grid_w_m * scale_factor)))
                    then 1 else 0))
                   * (max 0 ⌊D / (grid_h_m * scale_factor)⌋ + 1),
               north_width_m := W / scale_factor,
               depth_m := D / scale_factor } := by
  have hgroups := group_facade_segments_rect len x0 y0 W D hW hD
  have hA : segEndpoints [mkSeg len (x0, y0) (x0 + W, y0)]
      = [(x0, y0), (x0 + W, y0)] := by
    simp [segEndpoints, mkSeg]
  have hB : segEndpoints [mkSeg len (x0 + W, y0 + D) (x0, y0 + D)]
      = [(x0 + W, y0 + D), (x0, y0 + D)] := by
    simp [segEndpoints, mkSeg]
  have hq1 : qmin (([(x0, y0), (x0 + W, y0)] : List Point).map Prod.fst)
      = x0 := by
    simp only [List.map, qmin, List.foldl]
    exact min_eq_left (by linarith)
  have hq2 : qmax (([(x0, y0), (x0 + W, y0)] : List Point).map Prod.fst)
      = x0 + W := by
    simp only [List.map, qmax, List.foldl]
    exact max_eq_right (by linarith)
  have hq3 : qavg (([(x0, y0), (x0 + W, y0)] : List Point).map Prod.snd)
      = y0 := by
    simp only [List.map, qavg, List.sum_cons, List.sum_nil,
      List.length_cons, List.length_nil]
    push_cast
    ring
  have hq4 : qavg (([(x0 + W, y0 + D), (x0, y0 + D)] : List Point).map
      Prod.snd) = y0 + D := by
    simp only [List.map, qavg, List.sum_cons, List.sum_nil,
      List.length_cons, List.length_nil]
    push_cast
    ring
  have hwidth : max 0 (x0 + W - x0) = W := by
    rw [show x0 + W - x0 = W by ring]
    exact max_eq_right hW.le
  have hheight : max 0 (y0 + D - y0) = D := by
    rw [show y0 + D - y0 = D by ring]
    exact max_eq_right hD.le
  have hguard : ¬ (grid_w_m * scale_factor ≤ 0
      ∨ grid_h_m * scale_factor ≤ 0) :=
    not_or.mpr ⟨not_le.mpr (mul_pos hgw hsc), not_le.mpr (mul_pos hgh hsc)⟩
  simp only [estimate_triangle_posts_3x5_with_sides, List.length_cons,
    List.length_nil, hgroups]
  rw [if_neg (by omega)]
  simp only [List.isEmpty_cons, Bool.or_self, Bool.false_eq_true, if_false,
    ite_false, hA, hB, hq1, hq2, hq3, hq4, hwidth, hheight]
  rw [if_neg hguard]
  simp only [ne_of_gt hsc, if_false, ite_false]

/-- Symbolic evaluation of the gutter estimator on an axis-aligned W x D
rectangle with a positive grid spec, given the hypot length of the top
edge. -/
theorem estimate_gutters_rect (len : Point → Point → ℚ)
    (x0 y0 W D grid_w_m grid_h_m scale_factor : ℚ)
    (hW : 0 < W) (hD : 0 < D) (hgw : 0 < grid_w_m) (hgh : 0 < grid_h_m)
    (hsc : 0 < scale_factor)
    (hlen1 : len (x0, y0) (x0 + W, y0) = W) :
    estimate_gutters_length len
        [(x0, y0), (x0 + W, y0), (x0 + W, y0 + D), (x0, y0 + D)]
        grid_w_m grid_h_m scale_factor
      = some { grid_w_m := grid_w_m, grid_h_m := grid_h_m,
               scale_factor := scale_factor,
               north_width_m := W / scale_factor,
               depth_m := D / scale_factor,
               module_w_m := 1 * grid_w_m,
               n_full_modules := ⌊(W / scale_factor) / (1 * grid_w_m)⌋,
               lines_x :=
                 max 2 (⌊(W / scale_factor) / (1 * grid_w_m)⌋ + 1),
               piece_len_m := grid_h_m,
               pieces_per_line := ⌈(D / scale_factor) / grid_h_m⌉,
               total_pieces :=
                 max 2 (⌊(W / scale_factor) / (1 * grid_w_m)⌋ + 1)
                   * ⌈(D / scale_factor) / grid_h_m⌉ } := by
  have hgroups := group_facade_segments_rect len x0 y0 W D hW hD
  have hA : segEndpoints [mkSeg len (x0, y0) (x0 + W, y0)]
      = [(x0, y0), (x0 + W, y0)] := by
    simp [segEndpoints, mkSeg]
  have hB : segEndpoints [mkSeg len (x0 + W, y0 + D) (x0, y0 + D)]
      = [(x0 + W, y0 + D), (x0, y0 + D)] := by
    simp [segEndpoints, mkSeg]
  have hq3 : qavg (([(x0, y0), (x0 + W, y0)] : List Point).map Prod.snd)
      = y0 := by
    simp only [List.map, qavg, List.sum_cons, List.sum_nil,
      List.length_cons, List.length_nil]
    push_cast
    ring
  have hq4 : qavg (([(x0 + W, y0 + D), (x0, y0 + D)] : List Point).map
      Prod.snd) = y0 + D := by
    simp only [List.map, qavg, List.sum_cons, List.sum_nil,
      List.length_cons, List.length_nil]
    push_cast
    ring
  have hheight : max 0 (y0 + D - y0) = D := by
    rw [show y0 + D - y0 = D by ring]
    exact max_eq_right hD.le
  have hlensum : (([mkSeg len (x0, y0) (x0 + W, y0)] : List Seg).map
      fun s => s.length).sum = W := by
    simp [mkSeg, hlen1]
  have hmod : ¬ (1 * grid_w_m ≤ 0 ∨ grid_h_m ≤ 0) := by
    rw [one_mul]
    exact not_or.mpr ⟨not_le.mpr hgw, not_le.mpr hgh⟩
  simp only [estimate_gutters_length, List.length_cons, List.length_nil,
    hgroups]
  rw [if_neg (by omega)]
  simp only [List.isEmpty_cons, Bool.or_self, Bool.false_eq_true, if_false,
    ite_false, hA, hB, hq3, hq4, hheight, hlensum]
  rw [if_neg (not_le.mpr hsc), if_neg hmod, if_pos hgh]

/-- Counting a one-sided band over List.range shifted by lo. -/
theorem countP_range_shift (lo a b : ℤ) (n : ℕ) (h1 : lo ≤ a) :
    ((List.range n).countP
        (fun (k : ℕ) => decide (a ≤ lo + (k : ℤ) ∧ lo + (k : ℤ) < b)))
      = (min b (lo + n) - a).toNat := by
  induction n with
  | zero =>
    simp only [List.range_zero, List.countP_nil]
    omega
  | succ n ih =>
    rw [List.range_succ, List.countP_append, ih]
    by_cases hb : a ≤ lo + (n : ℤ) ∧ lo + (n : ℤ) < b
    · have hone : (List.countP
          (fun (k : ℕ) => decide (a ≤ lo + (k : ℤ) ∧ lo + (k : ℤ) < b))
          [n]) = 1 := by
        simp [hb]
      rw [hone]
      obtain ⟨hb1, hb2⟩ := hb
      omega
    · have hone : (List.countP
          (fun (k : ℕ) => decide (a ≤ lo + (k : ℤ) ∧ lo + (k : ℤ) < b))
          [n]) = 0 := by
        simp only [List.countP_cons, List.countP_nil, decide_eq_false hb]
        rfl
      rw [hone]
      rw [not_and_or, not_lt, not_le] at hb
      omega

/-- Counting a band predicate over an integer scan range that contains
the band. -/
theorem countP_intRange_band (lo hi a b : ℤ) (h1 : lo ≤ a) (h2 : b ≤ hi) :
    ((intRange lo hi).countP (fun t => decide (a ≤ t ∧ t < b)))
      = (b - a).toNat := by
  unfold intRange
  rw [List.countP_map]
  have heq : ((fun t => decide (a ≤ t ∧ t < b)) ∘ fun k : ℕ => lo + (k : ℤ))
      = fun k : ℕ => decide (a ≤ lo + (k : ℤ) ∧ lo + (k : ℤ) < b) := rfl
  rw [heq, countP_range_shift lo a b _ h1]
  omega

/-- countP of a predicate with a constant boolean conjunct. -/
theorem countP_and_const {α : Type} (l : List α) (p : α → Bool) (c : Bool) :
    (l.countP fun t => p t && c) = if c then l.countP p else 0 := by
  cases c with
  | true => simp
  | false => simp

/-- Sum of an if-then-else map equals the count times the constant. -/
theorem sum_map_ite_countP {α : Type} (l : List α) (c : α → Bool) (n : ℕ) :
    ((l.map fun t => if c t then n else 0).sum) = n * l.countP c := by
  induction l with
  | nil => simp
  | cons t rest ih =>
    simp only [List.map_cons, List.sum_cons, List.countP_cons, ih]
    by_cases hc : c t
    · simp [hc, Nat.mul_add]
      omega
    · simp [hc]

/-- On a grid-aligned rectangle spanning P x Q cells, a scan cell is full
exactly when its index lies in the band in both dimensions. -/
theorem cellIsFull_band (w h : ℚ) (hw : 0 < w) (hh : 0 < h)
    (i P j Q gx gy : ℤ) :
    cellIsFull ((i : ℚ) * w) ((i : ℚ) * w + (P : ℚ) * w)
        ((j : ℚ) * h) ((j : ℚ) * h + (Q : ℚ) * h) w h (gx, gy)
      = (decide (i ≤ gx ∧ gx < i + P) && decide (j ≤ gy ∧ gy < j + Q)) := by
  have e1 : (gx : ℚ) * w + w = ((gx + 1 : ℤ) : ℚ) * w := by push_cast; ring
  have e2 : (i : ℚ) * w + (P : ℚ) * w = ((i + P : ℤ) : ℚ) * w := by
    push_cast; ring
  have e3 : (gy : ℚ) * h + h = ((gy + 1 : ℤ) : ℚ) * h := by push_cast; ring
  have e4 : (j : ℚ) * h + (Q : ℚ) * h = ((j + Q : ℤ) : ℚ) * h := by
    push_cast; ring
  simp only [cellIsFull]
  rw [min_eq_left (by linarith : (gx : ℚ) * w ≤ (gx : ℚ) * w + w),
      max_eq_right (by linarith : (gx : ℚ) * w ≤ (gx : ℚ) * w + w),
      min_eq_left (by linarith : (gy : ℚ) * h ≤ (gy : ℚ) * h + h),
      max_eq_right (by linarith : (gy : ℚ) * h ≤ (gy : ℚ) * h + h)]
  rw [← Bool.decide_and]
  apply decide_eq_decide.mpr
  rw [max_eq_right_iff, min_eq_right_iff, max_eq_right_iff,
    min_eq_right_iff, e1, e2, e3, e4,
    mul_le_mul_right hw, mul_le_mul_right hw, mul_le_mul_right hh,
    mul_le_mul_right hh, Int.cast_le, Int.cast_le, Int.cast_le,
    Int.cast_le]
  constructor
  · rintro ⟨a1, a2, a3, a4⟩
    exact ⟨⟨a1, by omega⟩, a3, by omega⟩
  · rintro ⟨⟨a1, a2⟩, a3, a4⟩
    exact ⟨a1, by omega, a3, by omega⟩

/-- Outside the band in one dimension, the overlap width of a scan cell
with the rectangle is nonpositive. -/
theorem cellOverlapW_nonpos (w : ℚ) (hw : 0 < w) (i P t : ℤ)
    (hside : t + 1 ≤ i ∨ i + P ≤ t) :
    cellOverlapW ((i : ℚ) * w) ((i : ℚ) * w + (P : ℚ) * w) w t ≤ 0 := by
  unfold cellOverlapW
  rw [min_eq_left (by linarith : (t : ℚ) * w ≤ (t : ℚ) * w + w),
      max_eq_right (by linarith : (t : ℚ) * w ≤ (t : ℚ) * w + w)]
  rcases hside with hs | hs
  · have h1 : min ((i : ℚ) * w + (P : ℚ) * w) ((t : ℚ) * w + w)
        ≤ (t : ℚ) * w + w := min_le_right _ _
    have h2 : (i : ℚ) * w ≤ max ((i : ℚ) * w) ((t : ℚ) * w) :=
      le_max_left _ _
    have h3 : (t : ℚ) * w + w ≤ (i : ℚ) * w := by
      have hc : ((t : ℚ) + 1) ≤ (i : ℚ) := by exact_mod_cast hs
      nlinarith
    linarith
  · have h1 : min ((i : ℚ) * w + (P : ℚ) * w) ((t : ℚ) * w + w)
        ≤ (i : ℚ) * w + (P : ℚ) * w := min_le_left _ _
    have h2 : (t : ℚ) * w ≤ max ((i : ℚ) * w) ((t : ℚ) * w) :=
      le_max_right _ _
    have h3 : (i : ℚ) * w + (P : ℚ) * w ≤ (t : ℚ) * w := by
      have hc : ((i : ℚ) + (P : ℚ)) ≤ (t : ℚ) := by exact_mod_cast hs
      nlinarith
    linarith

/-- On a grid-aligned rectangle spanning whole cells, no scan cell is
recorded as partial: a cell is either full, or its intersection has zero
area and falls under the noise threshold. -/
theorem cellPartialRec_none (w h sc : ℚ) (hw : 0 < w) (hh : 0 < h)
    (i P j Q : ℤ) (c : ℤ × ℤ) :
    cellPartialRec ((i : ℚ) * w) ((i : ℚ) * w + (P : ℚ) * w)
        ((j : ℚ) * h) ((j : ℚ) * h + (Q : ℚ) * h) w h sc c = none := by
  obtain ⟨gx, gy⟩ := c
  by_cases hbx : i ≤ gx ∧ gx < i + P
  · by_cases hby : j ≤ gy ∧ gy < j + Q
    · have hfull : cellIsFull ((i : ℚ) * w) ((i : ℚ) * w + (P : ℚ) * w)
          ((j : ℚ) * h) ((j : ℚ) * h + (Q : ℚ) * h) w h (gx, gy)
          = true := by
        rw [cellIsFull_band w h hw hh]
        simp [hbx, hby]
      unfold cellPartialRec
      by_cases hempty : cellOverlapW ((i : ℚ) * w)
            ((i : ℚ) * w + (P : ℚ) * w) w gx < 0
          ∨ cellOverlapW ((j : ℚ) * h) ((j : ℚ) * h + (Q : ℚ) * h) h gy
            < 0
      · simp [hempty]
      · simp [hempty, hfull]
    · have how : cellOverlapW ((j : ℚ) * h) ((j : ℚ) * h + (Q : ℚ) * h) h
          gy ≤ 0 :=
        cellOverlapW_nonpos h hh j Q gy (by omega)
      unfold cellPartialRec
      by_cases hempty : cellOverlapW ((i : ℚ) * w)
            ((i : ℚ) * w + (P : ℚ) * w) w gx < 0
          ∨ cellOverlapW ((j : ℚ) * h) ((j : ℚ) * h + (Q : ℚ) * h) h gy
            < 0
      · simp [hempty]
      · simp only [hempty, if_false, ite_false]
        have hzero : max 0 (cellOverlapW ((j : ℚ) * h)
            ((j : ℚ) * h + (Q : ℚ) * h) h gy) = 0 := max_eq_left how
        rw [hzero, mul_zero]
        have hth : (0 : ℚ) ≤ max ((1:ℚ)/1000000) ((1:ℚ)/1000000
            * (|w| * |h|)) :=
          le_trans (by norm_num) (le_max_left _ _)
        simp only [hth, if_true, ite_true]
        split <;> rfl
  · have how : cellOverlapW ((i : ℚ) * w) ((i : ℚ) * w + (P : ℚ) * w) w
        gx ≤ 0 :=
      cellOverlapW_nonpos w hw i P gx (by omega)
    unfold cellPartialRec
    by_cases hempty : cellOverlapW ((i : ℚ) * w)
          ((i : ℚ) * w + (P : ℚ) * w) w gx < 0
        ∨ cellOverlapW ((j : ℚ) * h) ((j : ℚ) * h + (Q : ℚ) * h) h gy < 0
    · simp [hempty]
    · simp only [hempty, if_false, ite_false]
      have hzero : max 0 (cellOverlapW ((i : ℚ) * w)
          ((i : ℚ) * w + (P : ℚ) * w) w gx) = 0 := max_eq_left how
      rw [hzero, zero_mul]
      have hth : (0 : ℚ) ≤ max ((1:ℚ)/1000000) ((1:ℚ)/1000000
          * (|w| * |h|)) :=
        le_trans (by norm_num) (le_max_left _ _)
      simp only [hth, if_true, ite_true]
      split <;> rfl

/- ------------------------------------------------------------------ -/
/- Claim theorems                                                      -/
/- ------------------------------------------------------------------ -/

/-- C1: for every polygon with at least 3 vertices, group_facade_segments
assigns every edge of the implicitly closed polygon to exactly one of the
four facade groups: the concatenation of the four groups is a permutation
of the edge list (no edge dropped or duplicated), and the four group sizes
sum to the number of edges. -/
theorem facade_partition_complete (len : Point → Point → ℚ)
    (pts : List Point) (h3 : 3 ≤ pts.length) :
    ((group_facade_segments len pts).north ++
     (group_facade_segments len pts).south ++
     (group_facade_segments len pts).east ++
     (group_facade_segments len pts).west).Perm (buildSegments len pts) ∧
    (group_facade_segments len pts).north.length +
      (group_facade_segments len pts).south.length +
      (group_facade_segments len pts).east.length +
      (group_facade_segments len pts).west.length
      = (buildSegments len pts).length := by
  have hlt : ¬ pts.length < 3 := by omega
  cases hE : (buildSegments len pts).isEmpty with
  | true =>
    have hnil : buildSegments len pts = [] := by
      simpa using hE
    constructor
    · simp [group_facade_segments, hlt, hE, emptyGroups, hnil]
    · simp [group_facade_segments, hlt, hE, emptyGroups, hnil]
  | false =>
    have hperm :
        ((group_facade_segments len pts).north ++
         (group_facade_segments len pts).south ++
         (group_facade_segments len pts).east ++
         (group_facade_segments len pts).west).Perm
          (buildSegments len pts) := by
      simp only [group_facade_segments, hlt, hE, if_false, ite_false,
        Bool.false_eq_true, List.append_assoc]
      exact filter_facade_perm _ _
    refine ⟨hperm, ?_⟩
    have := hperm.length_eq
    simpa [List.length_append, Nat.add_assoc] using this

/-- C1 witness: the partition property evaluated on a concrete rectangle. -/
theorem facade_partition_complete_witness :
    3 ≤ demoSquare.length ∧
    (((group_facade_segments taxiLen demoSquare).north ++
      (group_facade_segments taxiLen demoSquare).south ++
      (group_facade_segments taxiLen demoSquare).east ++
      (group_facade_segments taxiLen demoSquare).west).Perm
        (buildSegments taxiLen demoSquare) ∧
     (group_facade_segments taxiLen demoSquare).north.length +
       (group_facade_segments taxiLen demoSquare).south.length +
       (group_facade_segments taxiLen demoSquare).east.length +
       (group_facade_segments taxiLen demoSquare).west.length
       = (buildSegments taxiLen demoSquare).length) :=
  ⟨by decide, facade_partition_complete taxiLen demoSquare (by decide)⟩

/-- C4: for every polygon with nonempty North and South facade groups and
strictly positive grid width and scale, if some segment of either group is
more than the tolerance away from horizontal (slope test with tanTol
standing for tan of the 10 degree tolerance), the facade-pair estimator
returns the fully populated zero-result with is_regular = false and
total_pairs = 0, not the absence value. -/
theorem koutelou_irregular_zero_result (tanTol : ℚ)
    (len : Point → Point → ℚ) (pts : List Point)
    (grid_w_m grid_h_m scale_factor pipe_length_m : ℚ)
    (hN : (group_facade_segments len pts).north ≠ [])
    (hS : (group_facade_segments len pts).south ≠ [])
    (hgw : 0 < grid_w_m) (hsc : 0 < scale_factor)
    (hirr : ∃ s ∈ (group_facade_segments len pts).north ++
              (group_facade_segments len pts).south,
            tanTol * |segDx s| < |segDy s|) :
    estimate_koutelou_pairs tanTol len pts grid_w_m grid_h_m scale_factor
        pipe_length_m
      = some { total_pairs := 0, north_pyramids := 0, south_pyramids := 0,
               total_pyramids := 0, is_regular := false,
               pipe_length_m := pipe_length_m } := by
  have hlt := not_lt_three_of_north_ne_nil hN
  have hNe := isEmpty_false_of_ne_nil hN
  have hSe := isEmpty_false_of_ne_nil hS
  have hpos : ¬ grid_w_m * scale_factor ≤ 0 :=
    not_le.mpr (mul_pos hgw hsc)
  obtain ⟨s, hmem, hslope⟩ := hirr
  have hreg : ((count_pyramids_in_segments tanTol
        (grid_w_m * scale_factor)
        (group_facade_segments len pts).north).2 &&
      (count_pyramids_in_segments tanTol (grid_w_m * scale_factor)
        (group_facade_segments len pts).south).2) = false := by
    rcases List.mem_append.mp hmem with hin | hin
    · simp [count_pyramids_not_regular hin hslope]
    · simp [count_pyramids_not_regular hin hslope]
  unfold estimate_koutelou_pairs
  rw [if_neg hlt]
  simp only [hNe, hSe, Bool.or_self, Bool.false_eq_true, if_false,
    ite_false, Bool.or_false]
  rw [if_neg hpos]
  simp only [hreg, Bool.false_eq_true, if_false, ite_false]

/-- A quadrilateral whose top edge is slanted by slope 0.2 (more than
tan(10 deg) from horizontal). -/
def demoSlanted : List Point := [(0, 0), (100, 20), (100, 100), (0, 100)]

/-- C4 witness: the zero-result on a concrete polygon with one slanted
north edge, with tanTol instantiated at 0.17633 = tan(10 deg) rounded. -/
theorem koutelou_irregular_zero_result_witness :
    ((group_facade_segments taxiLen demoSlanted).north ≠ [] ∧
     (group_facade_segments taxiLen demoSlanted).south ≠ [] ∧
     (0:ℚ) < 5 ∧ (0:ℚ) < 1 ∧
     (∃ s ∈ (group_facade_segments taxiLen demoSlanted).north ++
            (group_facade_segments taxiLen demoSlanted).south,
        (17633:ℚ)/100000 * |segDx s| < |segDy s|)) ∧
    estimate_koutelou_pairs ((17633:ℚ)/100000) taxiLen demoSlanted 5 3 1
        (254/100)
      = some { total_pairs := 0, north_pyramids := 0, south_pyramids := 0,
               total_pyramids := 0, is_regular := false,
               pipe_length_m := 254/100 } :=
  ⟨by decide,
   koutelou_irregular_zero_result ((17633:ℚ)/100000) taxiLen demoSlanted
     5 3 1 (254/100) (by decide) (by decide) (by decide) (by decide)
     (by decide)⟩

/-- C3: the claim says every estimator returns the absence value (and
raises no exception) when the grid spec is not strictly positive.  The code
disagrees at scale_px_per_m = 0: estimate_cultivation_pipes divides
width_px and depth_px by scale_factor before its validity check, and
compute_grid_coverage floor-divides the bounding box by grid_w =
cell_width * 0; both raise ZeroDivisionError on an otherwise valid
polygon.  The claim (and both functions' own docstrings, which promise
None for invalid input) state the intent; the code is a slip. -/
theorem zero_scale_raises_zero_division :
    estimate_cultivation_pipes [(0, 0), (10, 0), (10, 10)] 5 3 0 5
      = Except.error PyErr.zeroDivision ∧
    compute_grid_coverage_rect 0 0 10 10 5 3 0
      = Except.error PyErr.zeroDivision :=
  ⟨rfl, rfl⟩

/-- A U-shaped polygon (notch in the top edge reaching below the bounding
box center): its North group is two top edges of summed length 20 while
the North bounding x-extent is 30. -/
def demoU : List Point :=
  [(0, 0), (10, 0), (10, 20), (20, 20), (20, 0), (30, 0), (30, 30), (0, 30)]

/-- C5 counterexample: on the U-shaped polygon both estimators return
regular results, but the facade-pair estimator counts 4 North pyramids
(round of summed North segment length 20 over 5) while the side-support
estimator counts 6 (round of North x-extent 30 over 5). -/
theorem koutelou_plevra_pyramid_mismatch :
    (estimate_koutelou_pairs ((17633:ℚ)/100000) taxiLen demoU 5 3 1
        (254/100)).map (fun r => (r.north_pyramids, r.is_regular))
      = some (4, true) ∧
    (estimate_plevra taxiLen demoU 5 3 1 (254/100) (1/2) 1).map
        (fun o => o.map fun p => p.num_pyramids)
      = Except.ok (some 6) ∧
    (4 : ℤ) ≠ 6 := by
  refine ⟨by decide, ?_, by decide⟩
  rfl

/-- C5 (amended): the facade-pair estimator rounds the summed North
segment length over the module width, the side-support estimator rounds
the North bounding x-extent over the module width; whenever those two
widths coincide (in particular for axis-aligned rectangles) and both
estimators return results with regular facades, the two pyramid counts
agree. -/
theorem pyramid_counts_agree_on_matching_width (tanTol : ℚ)
    (len : Point → Point → ℚ) (pts : List Point)
    (grid_w_m grid_h_m scale_factor pipe_length_m first_offset_m
     spacing_m : ℚ) (r : KoutelouResult) (pl : PlevraResult)
    (hk : estimate_koutelou_pairs tanTol len pts grid_w_m grid_h_m
          scale_factor pipe_length_m = some r)
    (hreg : r.is_regular = true)
    (hp : estimate_plevra len pts grid_w_m grid_h_m scale_factor
          pipe_length_m first_offset_m spacing_m = .ok (some pl))
    (hagree : ((group_facade_segments len pts).north.map
          fun s => s.length).sum
        = qmax ((segEndpoints (group_facade_segments len pts).north).map
            Prod.fst)
          - qmin ((segEndpoints (group_facade_segments len pts).north).map
            Prod.fst)) :
    r.north_pyramids = pl.num_pyramids := by
  have hnv : r.north_pyramids
      = pyRound (((group_facade_segments len pts).north.map
          fun s => s.length).sum / (grid_w_m * scale_factor)) := by
    unfold estimate_koutelou_pairs at hk
    by_cases h3 : pts.length < 3
    · simp [h3] at hk
    · simp only [h3, if_false, ite_false] at hk
      by_cases hg : (group_facade_segments len pts).north.isEmpty
          || (group_facade_segments len pts).south.isEmpty
      · simp [hg] at hk
      · simp only [hg, Bool.false_eq_true, if_false, ite_false] at hk
        by_cases hw : grid_w_m * scale_factor ≤ 0
        · simp [hw] at hk
        · simp only [hw, if_false, ite_false] at hk
          by_cases hb : ((count_pyramids_in_segments tanTol
                (grid_w_m * scale_factor)
                (group_facade_segments len pts).north).2 &&
              (count_pyramids_in_segments tanTol (grid_w_m * scale_factor)
                (group_facade_segments len pts).south).2) = true
          · simp only [hb, if_true, ite_true] at hk
            cases hk
            exact count_pyramids_regular_val (Bool.and_elim_left hb)
          · simp only [hb, Bool.false_eq_true, if_false, ite_false] at hk
            cases hk
            simp at hreg
  rw [hnv, plevra_num_pyramids_val hp, hagree]

/-- C5 witness: on a concrete 4 x 2 rectangle with 2 m modules both
estimators return regular results and both count 2 pyramids. -/
theorem pyramid_counts_agree_on_matching_width_witness :
    (estimate_koutelou_pairs ((17633:ℚ)/100000) taxiLen demoSquare 2 3 1
        (254/100)
      = some { total_pairs := 8, north_pyramids := 2, south_pyramids := 2,
               total_pyramids := 4, is_regular := true,
               pipe_length_m := 254/100 } ∧
     estimate_plevra taxiLen demoSquare 2 3 1 (254/100) (1/2) 1
      = .ok (some { total_plevra := 4, num_pyramids := 2,
                    plevra_per_pyramid := 2, pipe_length_m := 254/100,
                    width_m := 4, depth_m := 2, usable_depth_m := 1,
                    first_offset_m := 1/2, spacing_m := 1 }) ∧
     ((group_facade_segments taxiLen demoSquare).north.map
         fun s => s.length).sum
       = qmax ((segEndpoints
           (group_facade_segments taxiLen demoSquare).north).map Prod.fst)
         - qmin ((segEndpoints
           (group_facade_segments taxiLen demoSquare).north).map
             Prod.fst)) ∧
    (2 : ℤ) = 2 := by
  have h1 : estimate_koutelou_pairs ((17633:ℚ)/100000) taxiLen demoSquare
      2 3 1 (254/100)
      = some { total_pairs := 8, north_pyramids := 2, south_pyramids := 2,
               total_pyramids := 4, is_regular := true,
               pipe_length_m := 254/100 } := by decide
  have h2 : estimate_plevra taxiLen demoSquare 2 3 1 (254/100) (1/2) 1
      = .ok (some { total_plevra := 4, num_pyramids := 2,
                    plevra_per_pyramid := 2, pipe_length_m := 254/100,
                    width_m := 4, depth_m := 2, usable_depth_m := 1,
                    first_offset_m := 1/2, spacing_m := 1 }) := by rfl
  have h3 : ((group_facade_segments taxiLen demoSquare).north.map
      fun s => s.length).sum
      = qmax ((segEndpoints
          (group_facade_segments taxiLen demoSquare).north).map Prod.fst)
        - qmin ((segEndpoints
          (group_facade_segments taxiLen demoSquare).north).map
            Prod.fst) := by decide
  exact ⟨⟨h1, h2, h3⟩,
    pyramid_counts_agree_on_matching_width ((17633:ℚ)/100000) taxiLen
      demoSquare 2 3 1 (254/100) (1/2) 1 _ _ h1 rfl h2 h3⟩

/-- C6: for every polygon with nonempty North and South groups and
strictly positive scale and grid dimensions, the gutter estimator returns
width_m = summed North length / scale, module_w_m = 1 * grid_w_m,
n_full = floor(width_m / module_w_m), lines_x = max(2, n_full + 1),
pieces_per_line = ceil(depth_m / grid_h_m) and
total_pieces = lines_x * pieces_per_line. -/
theorem gutters_formula (len : Point → Point → ℚ) (pts : List Point)
    (grid_w_m grid_h_m scale_factor : ℚ)
    (hN : (group_facade_segments len pts).north ≠ [])
    (hS : (group_facade_segments len pts).south ≠ [])
    (hsc : 0 < scale_factor) (hgw : 0 < grid_w_m) (hgh : 0 < grid_h_m) :
    estimate_gutters_length len pts grid_w_m grid_h_m scale_factor
      = some { grid_w_m := grid_w_m, grid_h_m := grid_h_m,
               scale_factor := scale_factor,
               north_width_m :=
                 (((group_facade_segments len pts).north.map
                     fun s => s.length).sum) / scale_factor,
               depth_m :=
                 (max 0 (qavg ((segEndpoints
                       (group_facade_segments len pts).south).map Prod.snd)
                     - qavg ((segEndpoints
                       (group_facade_segments len pts).north).map
                         Prod.snd))) / scale_factor,
               module_w_m := 1 * grid_w_m,
               n_full_modules :=
                 ⌊((((group_facade_segments len pts).north.map
                     fun s => s.length).sum) / scale_factor)
                   / (1 * grid_w_m)⌋,
               lines_x :=
                 max 2 (⌊((((group_facade_segments len pts).north.map
                     fun s => s.length).sum) / scale_factor)
                   / (1 * grid_w_m)⌋ + 1),
               piece_len_m := grid_h_m,
               pieces_per_line :=
                 ⌈((max 0 (qavg ((segEndpoints
                       (group_facade_segments len pts).south).map Prod.snd)
                     - qavg ((segEndpoints
                       (group_facade_segments len pts).north).map
                         Prod.snd))) / scale_factor) / grid_h_m⌉,
               total_pieces :=
                 max 2 (⌊((((group_facade_segments len pts).north.map
                     fun s => s.length).sum) / scale_factor)
                   / (1 * grid_w_m)⌋ + 1)
                 * ⌈((max 0 (qavg ((segEndpoints
                       (group_facade_segments len pts).south).map Prod.snd)
                     - qavg ((segEndpoints
                       (group_facade_segments len pts).north).map
                         Prod.snd))) / scale_factor) / grid_h_m⌉ } := by
  have hlt := not_lt_three_of_north_ne_nil hN
  have hNe := isEmpty_false_of_ne_nil hN
  have hSe := isEmpty_false_of_ne_nil hS
  have h1 : ¬ scale_factor ≤ 0 := not_le.mpr hsc
  have h2 : ¬ (1 * grid_w_m ≤ 0 ∨ grid_h_m ≤ 0) := by
    rw [one_mul]
    exact not_or.mpr ⟨not_le.mpr hgw, not_le.mpr hgh⟩
  simp only [estimate_gutters_length, hlt, hNe, hSe, h1, h2, hgh,
    Bool.or_self, Bool.false_eq_true, if_false, ite_false, if_true,
    ite_true, not_false_iff]

/-- C6 witness: the gutter formulas on a concrete 4 x 2 rectangle with a
2 m x 3 m grid at 1 px/m. -/
theorem gutters_formula_witness :
    ((group_facade_segments taxiLen demoSquare).north ≠ [] ∧
     (group_facade_segments taxiLen demoSquare).south ≠ [] ∧
     (0:ℚ) < 1 ∧ (0:ℚ) < 2 ∧ (0:ℚ) < 3) ∧
    estimate_gutters_length taxiLen demoSquare 2 3 1
      = some { grid_w_m := 2, grid_h_m := 3, scale_factor := 1,
               north_width_m := 4, depth_m := 2, module_w_m := 2,
               n_full_modules := 2, lines_x := 3, piece_len_m := 3,
               pieces_per_line := 1, total_pieces := 3 } := by
  have h := gutters_formula taxiLen demoSquare 2 3 1 (by decide)
    (by decide) (by decide) (by decide) (by decide)
  refine ⟨⟨by decide, by decide, by decide, by decide, by decide⟩, ?_⟩
  rw [h]
  decide

/-- C8 counterexample: the claim says the estimator returns total_meters =
num_lines * width_m, but the source stores round(total_meters, 2).  On the
triangle (0,0), (1,0), (1,3) with scale 3, cell height 1 and pipe length 5
the product is 2 * (1/3) = 2/3, while the returned field is 0.67. -/
theorem pipes_total_meters_rounded :
    (estimate_cultivation_pipes [(0, 0), (1, 0), (1, 3)] 5 1 3 5).map
        (fun o => o.map fun r => r.total_meters)
      = Except.ok (some (67/100)) ∧
    ((67:ℚ)/100) ≠ 2 * ((1:ℚ)/3) :=
  ⟨rfl, by decide⟩

theorem pyTrunc_eq_floor_of_nonneg {x : ℚ} (h : 0 ≤ x) :
    pyTrunc x = ⌊x⌋ := if_pos h

/-- C8 (amended): for every polygon with at least 3 vertices whose
bounding-box width and depth in meters, grid cell height and pipe length
are strictly positive, the pipe estimator returns
num_lines = floor(depth_m / cell_h) + 1,
total_pieces = ceil(num_lines * width_m / pipe_length),
left = right = round(total_pieces / 4), middle = total − left − right
(so the three zones sum to total_pieces); the returned total_meters field
is num_lines * width_m rounded to 2 decimals (the unrounded product is
what feeds total_pieces). -/
theorem cultivation_pipes_formulas (pts : List Point)
    (grid_w_m grid_h_m scale_factor pipe_length_m : ℚ)
    (h3 : 3 ≤ pts.length) (hsc : scale_factor ≠ 0)
    (hw : 0 < (qmax ((closeRing pts).map Prod.fst)
        - qmin ((closeRing pts).map Prod.fst)) / scale_factor)
    (hd : 0 < (qmax ((closeRing pts).map Prod.snd)
        - qmin ((closeRing pts).map Prod.snd)) / scale_factor)
    (hgh : 0 < grid_h_m) (hpl : 0 < pipe_length_m) :
    (estimate_cultivation_pipes pts grid_w_m grid_h_m scale_factor
        pipe_length_m
      = .ok (some
          { total_pipes :=
              ⌈(((⌊((qmax ((closeRing pts).map Prod.snd)
                    - qmin ((closeRing pts).map Prod.snd)) / scale_factor
                    / grid_h_m)⌋ + 1 : ℤ) : ℚ)
                 * ((qmax ((closeRing pts).map Prod.fst)
                    - qmin ((closeRing pts).map Prod.fst)) / scale_factor))
                / pipe_length_m⌉,
            total_meters :=
              pyRound2 (((⌊((qmax ((closeRing pts).map Prod.snd)
                    - qmin ((closeRing pts).map Prod.snd)) / scale_factor
                    / grid_h_m)⌋ + 1 : ℤ) : ℚ)
                 * ((qmax ((closeRing pts).map Prod.fst)
                    - qmin ((closeRing pts).map Prod.fst)) / scale_factor)),
            num_lines :=
              ⌊((qmax ((closeRing pts).map Prod.snd)
                 - qmin ((closeRing pts).map Prod.snd)) / scale_factor
                 / grid_h_m)⌋ + 1,
            width_m :=
              pyRound2 ((qmax ((closeRing pts).map Prod.fst)
                - qmin ((closeRing pts).map Prod.fst)) / scale_factor),
            depth_m :=
              pyRound2 ((qmax ((closeRing pts).map Prod.snd)
                - qmin ((closeRing pts).map Prod.snd)) / scale_factor),
            pipe_length_m := pipe_length_m,
            left_pieces :=
              pyRound ((⌈(((⌊((qmax ((closeRing pts).map Prod.snd)
                    - qmin ((closeRing pts).map Prod.snd)) / scale_factor
                    / grid_h_m)⌋ + 1 : ℤ) : ℚ)
                 * ((qmax ((closeRing pts).map Prod.fst)
                    - qmin ((closeRing pts).map Prod.fst)) / scale_factor))
                / pipe_length_m⌉ : ℚ) / 4),
            middle_pieces :=
              ⌈(((⌊((qmax ((closeRing pts).map Prod.snd)
                    - qmin ((closeRing pts).map Prod.snd)) / scale_factor
                    / grid_h_m)⌋ + 1 : ℤ) : ℚ)
                 * ((qmax ((closeRing pts).map Prod.fst)
                    - qmin ((closeRing pts).map Prod.fst)) / scale_factor))
                / pipe_length_m⌉
              - pyRound ((⌈(((⌊((qmax ((closeRing pts).map Prod.snd)
                    - qmin ((closeRing pts).map Prod.snd)) / scale_factor
                    / grid_h_m)⌋ + 1 : ℤ) : ℚ)
                 * ((qmax ((closeRing pts).map Prod.fst)
                    - qmin ((closeRing pts).map Prod.fst)) / scale_factor))
                / pipe_length_m⌉ : ℚ) / 4)
              - pyRound ((⌈(((⌊((qmax ((closeRing pts).map Prod.snd)
                    - qmin ((closeRing pts).map Prod.snd)) / scale_factor
                    / grid_h_m)⌋ + 1 : ℤ) : ℚ)
                 * ((qmax ((closeRing pts).map Prod.fst)
                    - qmin ((closeRing pts).map Prod.fst)) / scale_factor))
                / pipe_length_m⌉ : ℚ) / 4),
            right_pieces :=
              pyRound ((⌈(((⌊((qmax ((closeRing pts).map Prod.snd)
                    - qmin ((closeRing pts).map Prod.snd)) / scale_factor
                    / grid_h_m)⌋ + 1 : ℤ) : ℚ)
                 * ((qmax ((closeRing pts).map Prod.fst)
                    - qmin ((closeRing pts).map Prod.fst)) / scale_factor))
                / pipe_length_m⌉ : ℚ) / 4),
            grid_h_m := grid_h_m, grid_w_m := grid_w_m,
            scale_factor := scale_factor })) ∧
    (∀ r : PipesResult,
      estimate_cultivation_pipes pts grid_w_m grid_h_m scale_factor
        pipe_length_m = .ok (some r) →
      r.left_pieces + r.middle_pieces + r.right_pieces = r.total_pipes) := by
  have hlt : ¬ pts.length < 3 := by omega
  have hwn : ¬ (qmax ((closeRing pts).map Prod.fst)
      - qmin ((closeRing pts).map Prod.fst)) / scale_factor ≤ 0 :=
    not_le.mpr hw
  have hdn : ¬ (qmax ((closeRing pts).map Prod.snd)
      - qmin ((closeRing pts).map Prod.snd)) / scale_factor ≤ 0 :=
    not_le.mpr hd
  have hghn : ¬ grid_h_m ≤ 0 := not_le.mpr hgh
  have hpln : ¬ pipe_length_m ≤ 0 := not_le.mpr hpl
  have htr : pyTrunc ((qmax ((closeRing pts).map Prod.snd)
      - qmin ((closeRing pts).map Prod.snd)) / scale_factor / grid_h_m)
      = ⌊((qmax ((closeRing pts).map Prod.snd)
      - qmin ((closeRing pts).map Prod.snd)) / scale_factor / grid_h_m)⌋ :=
    pyTrunc_eq_floor_of_nonneg (div_nonneg (le_of_lt hd) (le_of_lt hgh))
  constructor
  · simp only [estimate_cultivation_pipes, hlt, pydiv, hsc, hwn, hdn, hghn,
      hpln, htr, if_false, ite_false, or_self, false_or, or_false,
      not_false_iff, if_true, ite_true]
  · intro r hr
    rw [estimate_cultivation_pipes] at hr
    simp only [hlt, pydiv, hsc, hwn, hdn, hghn, hpln, if_false, ite_false,
      or_self, false_or, or_false, not_false_iff, if_true, ite_true] at hr
    cases hr
    simp only []
    ring

/-- C8 witness: the amended formulas applied to the concrete triangle
(0,0), (1,0), (1,3) with scale 3, cell height 1 and pipe length 5:
num_lines = 2, total_meters field = 0.67, total_pieces = 1, zones 0+1+0. -/
theorem cultivation_pipes_formulas_witness :
    (3 ≤ ([(0, 0), (1, 0), (1, 3)] : List Point).length ∧
     (3:ℚ) ≠ 0 ∧
     (0:ℚ) < (qmax ((closeRing [(0, 0), (1, 0), (1, 3)]).map Prod.fst)
        - qmin ((closeRing [(0, 0), (1, 0), (1, 3)]).map Prod.fst)) / 3 ∧
     (0:ℚ) < (qmax ((closeRing [(0, 0), (1, 0), (1, 3)]).map Prod.snd)
        - qmin ((closeRing [(0, 0), (1, 0), (1, 3)]).map Prod.snd)) / 3 ∧
     (0:ℚ) < 1 ∧ (0:ℚ) < 5) ∧
    estimate_cultivation_pipes [(0, 0), (1, 0), (1, 3)] 5 1 3 5
      = .ok (some { total_pipes := 1, total_meters := 67/100,
                    num_lines := 2, width_m := 33/100, depth_m := 1,
                    pipe_length_m := 5, left_pieces := 0,
                    middle_pieces := 1, right_pieces := 0,
                    grid_h_m := 1, grid_w_m := 5, scale_factor := 3 }) ∧
    (0:ℤ) + 1 + 0 = 1 := by
  have h := cultivation_pipes_formulas [(0, 0), (1, 0), (1, 3)] 5 1 3 5
    (by decide) (by decide) (by decide) (by decide) (by decide) (by decide)
  refine ⟨⟨by decide, by decide, by decide, by decide, by decide,
    by decide⟩, ?_, ?_⟩
  · rw [h.1]
    rfl
  · exact h.2 _ (by rw [h.1])

/-- C9 counterexample: the claim says a positive-quantity line whose
material code is missing from the catalog carries the code itself as
display name.  For the generic gutter code this is false: with an empty
catalog, a 3.5 m grid height and a 7-piece gutter estimate, the emitted
line carries the annotated "Gutter 3.5m" label, not the code (the zero
price, zero total and carried quantity do hold). -/
theorem bom_gutter_label_not_code :
    (compute_bom [] "EUR" none
        (estimate_gutters_length taxiLen
          [(0, 0), (150, 0), (150, 15), (0, 15)] 5 (7/2) 5) (7/2)).lines
      = [{ code := "gutter_piece", name := DisplayName.gutterLabel (7/2),
           unit := "piece", quantity := 7, unit_price := 0, total := 0 }] ∧
    DisplayName.gutterLabel (7/2) ≠ DisplayName.raw "gutter_piece" := by
  refine ⟨?_, by decide⟩
  rfl

/-- C9 (amended): compute_bom never omits a positive-quantity line: each of
the tall-post, low-post and gutter quantities that is nonzero yields a bill
line; a missing catalog code yields the zero-priced fallback carrying the
computed quantity, whose display name is the code itself — except for the
generic gutter line, which always (catalog hit or miss) carries the
annotated gutter label while any other gutter code displays the material
name (hence the code itself when missing); and in every produced bill each
line total is quantity * unit_price and the subtotal is the sum of the
line totals. -/
theorem bom_fallback_and_totals (materials : List (String × MaterialItem))
    (currency : String) (posts : Option PostResult)
    (gutters : Option GutterResult) (grid_h_m : ℚ) :
    (∀ l ∈ (compute_bom materials currency posts gutters grid_h_m).lines,
       l.total = l.quantity * l.unit_price) ∧
    (compute_bom materials currency posts gutters grid_h_m).subtotal
      = ((compute_bom materials currency posts gutters grid_h_m).lines.map
          fun l => l.total).sum ∧
    (∀ p, posts = some p → p.total_tall_posts ≠ 0 →
       lookupMaterial materials "post_tall" = none →
       ∃ l ∈ (compute_bom materials currency posts gutters grid_h_m).lines,
         l.code = "post_tall" ∧ l.name = DisplayName.raw "post_tall" ∧
         l.quantity = (p.total_tall_posts : ℚ) ∧ l.unit_price = 0 ∧
         l.total = 0) ∧
    (∀ p, posts = some p → p.total_low_posts ≠ 0 →
       lookupMaterial materials "post_low" = none →
       ∃ l ∈ (compute_bom materials currency posts gutters grid_h_m).lines,
         l.code = "post_low" ∧ l.name = DisplayName.raw "post_low" ∧
         l.quantity = (p.total_low_posts : ℚ) ∧ l.unit_price = 0 ∧
         l.total = 0) ∧
    (∀ gr, gutters = some gr → gr.total_pieces ≠ 0 →
       ∃ l ∈ (compute_bom materials currency posts gutters grid_h_m).lines,
         l.code = (get_material materials (gutterCode grid_h_m)).code ∧
         l.quantity = (gr.total_pieces : ℚ) ∧
         l.unit_price
           = (get_material materials (gutterCode grid_h_m)).unit_price ∧
         l.total = (gr.total_pieces : ℚ)
           * (get_material materials (gutterCode grid_h_m)).unit_price ∧
         (if gutterCode grid_h_m = "gutter_piece"
          then l.name = DisplayName.gutterLabel grid_h_m
          else l.name = DisplayName.raw
            (get_material materials (gutterCode grid_h_m)).name)) ∧
    (∀ gr, gutters = some gr → gr.total_pieces ≠ 0 →
       lookupMaterial materials (gutterCode grid_h_m) = none →
       ∃ l ∈ (compute_bom materials currency posts gutters grid_h_m).lines,
         l.code = gutterCode grid_h_m ∧
         l.quantity = (gr.total_pieces : ℚ) ∧ l.unit_price = 0 ∧
         l.total = 0 ∧
         (if gutterCode grid_h_m = "gutter_piece"
          then l.name = DisplayName.gutterLabel grid_h_m
          else l.name = DisplayName.raw (gutterCode grid_h_m))) := by
  refine ⟨?_, ?_, ?_, ?_, ?_, ?_⟩
  · intro l hl
    rcases posts with _ | p <;> rcases gutters with _ | g <;>
      simp only [compute_bom] at hl <;> (try split_ifs at hl) <;>
      simp only [List.nil_append, List.append_assoc, List.mem_append,
        List.mem_singleton, List.not_mem_nil, or_false, false_or] at hl <;>
      (rcases hl with rfl | rfl | rfl <;> rfl)
  · rcases posts with _ | p <;> rcases gutters with _ | g <;>
      simp only [compute_bom] <;> (try split_ifs) <;>
      simp [List.sum_append] <;> ring
  · intro p hp hq hlk
    subst hp
    have hq' : (p.total_tall_posts : ℚ) ≠ 0 := Int.cast_ne_zero.mpr hq
    have hget : get_material materials "post_tall"
        = ⟨"post_tall", "post_tall", "piece", 0⟩ := by
      rw [get_material, hlk]
    rcases gutters with _ | g <;>
      simp only [compute_bom, hget, hq', if_true, ite_true, not_false_iff,
        ne_eq] <;> (try split_ifs) <;>
      exact ⟨⟨"post_tall", .raw "post_tall", "piece",
          (p.total_tall_posts : ℚ), 0, (p.total_tall_posts : ℚ) * 0⟩,
        by simp, rfl, rfl, rfl, rfl, mul_zero _⟩
  · intro p hp hq hlk
    subst hp
    have hq' : (p.total_low_posts : ℚ) ≠ 0 := Int.cast_ne_zero.mpr hq
    have hget : get_material materials "post_low"
        = ⟨"post_low", "post_low", "piece", 0⟩ := by
      rw [get_material, hlk]
    rcases gutters with _ | g <;>
      simp only [compute_bom, hget, hq', if_true, ite_true, not_false_iff,
        ne_eq] <;> (try split_ifs) <;>
      exact ⟨⟨"post_low", .raw "post_low", "piece",
          (p.total_low_posts : ℚ), 0, (p.total_low_posts : ℚ) * 0⟩,
        by simp, rfl, rfl, rfl, rfl, mul_zero _⟩
  · intro gr hg hq
    subst hg
    have hq' : (gr.total_pieces : ℚ) ≠ 0 := Int.cast_ne_zero.mpr hq
    by_cases hc : gutterCode grid_h_m = "gutter_piece"
    · rcases posts with _ | p <;>
        simp only [compute_bom, hc, hq', if_true, ite_true,
          not_false_iff, ne_eq, not_true, eq_self_iff_true, if_false,
          ite_false, not_true_eq_false] <;> (try split_ifs) <;>
        exact ⟨⟨(get_material materials "gutter_piece").code,
            .gutterLabel grid_h_m,
            (get_material materials "gutter_piece").unit,
            (gr.total_pieces : ℚ),
            (get_material materials "gutter_piece").unit_price,
            (gr.total_pieces : ℚ)
              * (get_material materials "gutter_piece").unit_price⟩,
          by simp, rfl, rfl, rfl, rfl, rfl⟩
    · rcases posts with _ | p <;>
        simp only [compute_bom, hq', hc, if_true, ite_true,
          not_false_iff, ne_eq, if_false, ite_false] <;>
        (try split_ifs) <;>
        exact ⟨⟨(get_material materials (gutterCode grid_h_m)).code,
            .raw (get_material materials (gutterCode grid_h_m)).name,
            (get_material materials (gutterCode grid_h_m)).unit,
            (gr.total_pieces : ℚ),
            (get_material materials (gutterCode grid_h_m)).unit_price,
            (gr.total_pieces : ℚ)
              * (get_material materials (gutterCode grid_h_m)).unit_price⟩,
          by simp, rfl, rfl, rfl, rfl, rfl⟩
  · intro gr hg hq hlk
    subst hg
    have hq' : (gr.total_pieces : ℚ) ≠ 0 := Int.cast_ne_zero.mpr hq
    have hget : get_material materials (gutterCode grid_h_m)
        = ⟨gutterCode grid_h_m, gutterCode grid_h_m, "piece", 0⟩ := by
      rw [get_material, hlk]
    by_cases hc : gutterCode grid_h_m = "gutter_piece"
    · rw [hc] at hget
      rcases posts with _ | p <;>
        simp only [compute_bom, hc, hget, hq', if_true, ite_true,
          not_false_iff, ne_eq, not_true, eq_self_iff_true, if_false,
          ite_false, not_true_eq_false] <;> (try split_ifs) <;>
        exact ⟨⟨"gutter_piece", .gutterLabel grid_h_m, "piece",
            (gr.total_pieces : ℚ), 0, (gr.total_pieces : ℚ) * 0⟩,
          by simp, rfl, rfl, rfl, mul_zero _, rfl⟩
    · rcases posts with _ | p <;>
        simp only [compute_bom, hget, hq', hc, if_true, ite_true,
          not_false_iff, ne_eq, if_false, ite_false] <;>
        (try split_ifs) <;>
        exact ⟨⟨gutterCode grid_h_m, .raw (gutterCode grid_h_m), "piece",
            (gr.total_pieces : ℚ), 0, (gr.total_pieces : ℚ) * 0⟩,
          by simp, rfl, rfl, rfl, mul_zero _, rfl⟩

/-- A concrete post estimate record used by the BOM witness. -/
def demoPostRec : PostResult :=
  { grid_w_m := 5, grid_h_m := 3, scale_factor := 1, rows := 2,
    full_triangles_per_row := 2, has_half_triangle_per_row := false,
    low_posts_per_row := 3, tall_posts_per_row := 2, total_low_posts := 6,
    total_tall_posts := 4, north_width_m := 10, depth_m := 3 }

/-- A concrete gutter estimate record used by the BOM witness. -/
def demoGutterRec : GutterResult :=
  { grid_w_m := 5, grid_h_m := 7/2, scale_factor := 1,
    north_width_m := 30, depth_m := 3, module_w_m := 5,
    n_full_modules := 6, lines_x := 7, piece_len_m := 7/2,
    pieces_per_line := 1, total_pieces := 7 }

/-- C9 witness: the amended BOM properties at an empty catalog, concrete
post and gutter estimates and grid height 3.5. -/
theorem bom_fallback_and_totals_witness :
    (∀ l ∈ (compute_bom [] "EUR" (some demoPostRec) (some demoGutterRec)
        (7/2)).lines, l.total = l.quantity * l.unit_price) ∧
    (compute_bom [] "EUR" (some demoPostRec) (some demoGutterRec)
        (7/2)).subtotal
      = ((compute_bom [] "EUR" (some demoPostRec) (some demoGutterRec)
          (7/2)).lines.map fun l => l.total).sum ∧
    (∀ p, some demoPostRec = some p → p.total_tall_posts ≠ 0 →
       lookupMaterial [] "post_tall" = none →
       ∃ l ∈ (compute_bom [] "EUR" (some demoPostRec) (some demoGutterRec)
           (7/2)).lines,
         l.code = "post_tall" ∧ l.name = DisplayName.raw "post_tall" ∧
         l.quantity = (p.total_tall_posts : ℚ) ∧ l.unit_price = 0 ∧
         l.total = 0) ∧
    (∀ p, some demoPostRec = some p → p.total_low_posts ≠ 0 →
       lookupMaterial [] "post_low" = none →
       ∃ l ∈ (compute_bom [] "EUR" (some demoPostRec) (some demoGutterRec)
           (7/2)).lines,
         l.code = "post_low" ∧ l.name = DisplayName.raw "post_low" ∧
         l.quantity = (p.total_low_posts : ℚ) ∧ l.unit_price = 0 ∧
         l.total = 0) ∧
    (∀ gr, some demoGutterRec = some gr → gr.total_pieces ≠ 0 →
       ∃ l ∈ (compute_bom [] "EUR" (some demoPostRec) (some demoGutterRec)
           (7/2)).lines,
         l.code = (get_material [] (gutterCode (7/2))).code ∧
         l.quantity = (gr.total_pieces : ℚ) ∧
         l.unit_price = (get_material [] (gutterCode (7/2))).unit_price ∧
         l.total = (gr.total_pieces : ℚ)
           * (get_material [] (gutterCode (7/2))).unit_price ∧
         (if gutterCode (7/2) = "gutter_piece"
          then l.name = DisplayName.gutterLabel (7/2)
          else l.name = DisplayName.raw
            (get_material [] (gutterCode (7/2))).name)) ∧
    (∀ gr, some demoGutterRec = some gr → gr.total_pieces ≠ 0 →
       lookupMaterial [] (gutterCode (7/2)) = none →
       ∃ l ∈ (compute_bom [] "EUR" (some demoPostRec) (some demoGutterRec)
           (7/2)).lines,
         l.code = gutterCode (7/2) ∧
         l.quantity = (gr.total_pieces : ℚ) ∧ l.unit_price = 0 ∧
         l.total = 0 ∧
         (if gutterCode (7/2) = "gutter_piece"
          then l.name = DisplayName.gutterLabel (7/2)
          else l.name = DisplayName.raw (gutterCode (7/2)))) :=
  bom_fallback_and_totals [] "EUR" (some demoPostRec) (some demoGutterRec)
    (7/2)

/-- C2 counterexample: for the claim as stated (any strictly positive grid
spec), a grid cell width of 2e-6 px defeats it: the half-module guard
remainder >= 0.5 * grid_w_px - 1e-6 fires on a zero remainder, so a 1 x 1
cell rectangle (k = m = 1) yields total_tall_posts = 4, not
k x (m + 1) = 2. -/
theorem posts_epsilon_half_module :
    (estimate_triangle_posts_3x5_with_sides taxiLen
        [(0, 0), (1/500000, 0), (1/500000, 3), (0, 3)]
        (1/500000) 3 1).map (fun r => r.total_tall_posts)
      = some 4 ∧ (4 : ℤ) ≠ 1 * (1 + 1) :=
  ⟨by decide, by decide⟩

/-- C2 (amended): for every axis-aligned rectangle of width k grid cells
and depth m grid cells (k, m >= 1), with a strictly positive grid spec
whose cell width in pixels moreover exceeds 2e-6 (so the half-module
epsilon guard cannot fire on the zero remainder), the fast-path post
estimator returns rows = m + 1, total_low_posts = (k+1)(m+1) and
total_tall_posts = k(m+1), and the gutter estimator returns
lines_x = k + 1 and pieces_per_line = m; the length oracle is assumed to
agree with hypot on horizontal segments. -/
theorem rect_posts_gutters_counts (len : Point → Point → ℚ)
    (hlen : ∀ p q : Point, p.2 = q.2 → len p q = |q.1 - p.1|)
    (x0 y0 grid_w_m grid_h_m scale_factor : ℚ) (k m : ℕ)
    (hk : 1 ≤ k) (hm : 1 ≤ m)
    (hgw : 0 < grid_w_m) (hgh : 0 < grid_h_m) (hsc : 0 < scale_factor)
    (heps : (1:ℚ)/500000 < grid_w_m * scale_factor) :
    (estimate_triangle_posts_3x5_with_sides len
        [(x0, y0), (x0 + k * (grid_w_m * scale_factor), y0),
         (x0 + k * (grid_w_m * scale_factor),
          y0 + m * (grid_h_m * scale_factor)),
         (x0, y0 + m * (grid_h_m * scale_factor))]
        grid_w_m grid_h_m scale_factor).map
        (fun r => (r.rows, r.total_low_posts, r.total_tall_posts))
      = some ((m : ℤ) + 1, ((k : ℤ) + 1) * ((m : ℤ) + 1),
              (k : ℤ) * ((m : ℤ) + 1)) ∧
    (estimate_gutters_length len
        [(x0, y0), (x0 + k * (grid_w_m * scale_factor), y0),
         (x0 + k * (grid_w_m * scale_factor),
          y0 + m * (grid_h_m * scale_factor)),
         (x0, y0 + m * (grid_h_m * scale_factor))]
        grid_w_m grid_h_m scale_factor).map
        (fun r => (r.lines_x, r.pieces_per_line))
      = some ((k : ℤ) + 1, (m : ℤ)) := by
  have hcpos : 0 < grid_w_m * scale_factor := mul_pos hgw hsc
  have hdpos : 0 < grid_h_m * scale_factor := mul_pos hgh hsc
  have hk0 : 0 < (k : ℚ) := by exact_mod_cast hk
  have hm0 : 0 < (m : ℚ) := by exact_mod_cast hm
  have hW : 0 < (k : ℚ) * (grid_w_m * scale_factor) := mul_pos hk0 hcpos
  have hD : 0 < (m : ℚ) * (grid_h_m * scale_factor) := mul_pos hm0 hdpos
  have hfl1 : ⌊(k : ℚ) * (grid_w_m * scale_factor)
      / (1 * (grid_w_m * scale_factor))⌋ = (k : ℤ) := by
    rw [one_mul, mul_div_cancel_right₀ _ (ne_of_gt hcpos)]
    exact Int.floor_natCast k
  have hfl2 : ⌊(m : ℚ) * (grid_h_m * scale_factor)
      / (grid_h_m * scale_factor)⌋ = (m : ℤ) := by
    rw [mul_div_cancel_right₀ _ (ne_of_gt hdpos)]
    exact Int.floor_natCast m
  have hrows : max 0 ((m : ℤ)) = (m : ℤ) :=
    max_eq_right (Int.natCast_nonneg m)
  have hhalf : decide ((1:ℚ)/2 * (grid_w_m * scale_factor) - 1/1000000
      ≤ (k : ℚ) * (grid_w_m * scale_factor)
        - (((k : ℤ) : ℚ)) * (1 * (grid_w_m * scale_factor))) = false := by
    apply decide_eq_false
    rw [not_le]
    have hz : (k : ℚ) * (grid_w_m * scale_factor)
        - (((k : ℤ) : ℚ)) * (1 * (grid_w_m * scale_factor)) = 0 := by
      push_cast
      ring
    rw [hz]
    linarith
  constructor
  · rw [estimate_posts_rect len x0 y0 _ _ grid_w_m grid_h_m scale_factor
      hW hD hgw hgh hsc]
    simp only [Option.map_some', hfl1, hfl2, hrows, hhalf,
      Bool.false_eq_true, if_false, ite_false, add_zero]
  · have hlen1 : len (x0, y0)
        (x0 + (k : ℚ) * (grid_w_m * scale_factor), y0)
        = (k : ℚ) * (grid_w_m * scale_factor) := by
      rw [hlen (x0, y0)
        (x0 + (k : ℚ) * (grid_w_m * scale_factor), y0) rfl]
      rw [show x0 + (k : ℚ) * (grid_w_m * scale_factor) - x0
          = (k : ℚ) * (grid_w_m * scale_factor) by ring]
      exact abs_of_pos hW
    rw [estimate_gutters_rect len x0 y0 _ _ grid_w_m grid_h_m scale_factor
      hW hD hgw hgh hsc hlen1]
    have hfl3 : ⌊((k : ℚ) * (grid_w_m * scale_factor) / scale_factor)
        / (1 * grid_w_m)⌋ = (k : ℤ) := by
      rw [one_mul]
      rw [show (k : ℚ) * (grid_w_m * scale_factor) / scale_factor
          / grid_w_m = (k : ℚ) by
        field_simp
        exact Or.inl (mul_comm _ _)]
      exact Int.floor_natCast k
    have hcl : ⌈((m : ℚ) * (grid_h_m * scale_factor) / scale_factor)
        / grid_h_m⌉ = (m : ℤ) := by
      rw [show (m : ℚ) * (grid_h_m * scale_factor) / scale_factor
          / grid_h_m = (m : ℚ) by
        field_simp
        exact Or.inl (mul_comm _ _)]
      exact Int.ceil_natCast m
    have hmax : max 2 ((k : ℤ) + 1) = (k : ℤ) + 1 :=
      max_eq_right (by omega)
    simp only [Option.map_some', hfl3, hcl, hmax]

/-- C2 witness: the literal scenario of the claim: rectangle (0,0),
(500,0), (500,300), (0,300), scale 5 px/m, cells 5 m x 3 m, i.e. k = 20,
m = 20: rows = 21, total_low_posts = 441, total_tall_posts = 420,
lines_x = 21, pieces_per_line = 20. -/
theorem rect_posts_gutters_counts_witness :
    ((∀ p q : Point, p.2 = q.2 → taxiLen p q = |q.1 - p.1|) ∧
     1 ≤ 20 ∧ (0:ℚ) < 5 ∧ (0:ℚ) < 3 ∧ (1:ℚ)/500000 < 5 * 5) ∧
    (estimate_triangle_posts_3x5_with_sides taxiLen
        [(0, 0), (500, 0), (500, 300), (0, 300)] 5 3 5).map
        (fun r => (r.rows, r.total_low_posts, r.total_tall_posts))
      = some (21, 441, 420) ∧
    (estimate_gutters_length taxiLen
        [(0, 0), (500, 0), (500, 300), (0, 300)] 5 3 5).map
        (fun r => (r.lines_x, r.pieces_per_line))
      = some (21, 20) := by
  have h := rect_posts_gutters_counts taxiLen taxiLen_horizontal 0 0 5 3 5
    20 20 (by decide) (by decide) (by decide) (by decide) (by decide)
    (by decide)
  refine ⟨⟨taxiLen_horizontal, by decide, by decide, by decide,
    by decide⟩, ?_, ?_⟩
  · exact h.1
  · exact h.2

/-- C7: for every axis-aligned rectangle whose corners lie exactly on
grid lines (left edge at i cells, top edge at j cells) and whose width
and depth are whole multiples P x Q of the (positive) cell size,
compute_grid_coverage returns full_count = P * Q and an empty list of
partial cells. -/
theorem rect_full_coverage (grid_w_m grid_h_m scale_factor : ℚ)
    (i j P Q : ℤ) (hP : 1 ≤ P) (hQ : 1 ≤ Q)
    (hw : 0 < grid_w_m * scale_factor)
    (hh : 0 < grid_h_m * scale_factor) :
    (compute_grid_coverage_rect
        ((i : ℚ) * (grid_w_m * scale_factor))
        ((j : ℚ) * (grid_h_m * scale_factor))
        ((i : ℚ) * (grid_w_m * scale_factor)
          + (P : ℚ) * (grid_w_m * scale_factor))
        ((j : ℚ) * (grid_h_m * scale_factor)
          + (Q : ℚ) * (grid_h_m * scale_factor))
        grid_w_m grid_h_m scale_factor).map
        (fun c => ((c.full_count : ℤ), c.partial_details))
      = .ok (P * Q, ([] : List PartialCell)) := by
  set w := grid_w_m * scale_factor with hwdef
  set h := grid_h_m * scale_factor with hhdef
  have hP0 : 0 < (P : ℚ) := by exact_mod_cast hP
  have hQ0 : 0 < (Q : ℚ) := by exact_mod_cast hQ
  have hxle : (i : ℚ) * w ≤ (i : ℚ) * w + (P : ℚ) * w := by nlinarith
  have hyle : (j : ℚ) * h ≤ (j : ℚ) * h + (Q : ℚ) * h := by nlinarith
  have hdiv1 : pyFloorDiv ((i : ℚ) * w) w = .ok i := by
    rw [pyFloorDiv, if_neg (ne_of_gt hw),
      mul_div_cancel_right₀ _ (ne_of_gt hw), Int.floor_intCast]
  have hdiv2 : pyFloorDiv ((j : ℚ) * h) h = .ok j := by
    rw [pyFloorDiv, if_neg (ne_of_gt hh),
      mul_div_cancel_right₀ _ (ne_of_gt hh), Int.floor_intCast]
  have hdiv3 : pyFloorDiv ((i : ℚ) * w + (P : ℚ) * w) w = .ok (i + P) := by
    rw [pyFloorDiv, if_neg (ne_of_gt hw),
      show (i : ℚ) * w + (P : ℚ) * w = ((i + P : ℤ) : ℚ) * w by
        push_cast; ring,
      mul_div_cancel_right₀ _ (ne_of_gt hw), Int.floor_intCast]
  have hdiv4 : pyFloorDiv ((j : ℚ) * h + (Q : ℚ) * h) h = .ok (j + Q) := by
    rw [pyFloorDiv, if_neg (ne_of_gt hh),
      show (j : ℚ) * h + (Q : ℚ) * h = ((j + Q : ℤ) : ℚ) * h by
        push_cast; ring,
      mul_div_cancel_right₀ _ (ne_of_gt hh), Int.floor_intCast]
  simp only [compute_grid_coverage_rect, min_eq_left hxle,
    max_eq_right hxle, min_eq_left hyle, max_eq_right hyle,
    hdiv1, hdiv2, hdiv3, hdiv4, Except.map]
  have hpart : (((intRange (j - 1) (j + Q + 2)).flatMap
      fun gy => (intRange (i - 1) (i + P + 2)).map fun gx => (gx, gy))
        |>.filterMap (cellPartialRec ((i : ℚ) * w)
          ((i : ℚ) * w + (P : ℚ) * w) ((j : ℚ) * h)
          ((j : ℚ) * h + (Q : ℚ) * h) w h scale_factor)) = [] := by
    refine List.filterMap_eq_nil_iff.mpr ?_
    intro c _
    exact cellPartialRec_none w h scale_factor hw hh i P j Q c
  have hcount : (((intRange (j - 1) (j + Q + 2)).flatMap
      fun gy => (intRange (i - 1) (i + P + 2)).map fun gx => (gx, gy))
        |>.countP (cellIsFull ((i : ℚ) * w) ((i : ℚ) * w + (P : ℚ) * w)
          ((j : ℚ) * h) ((j : ℚ) * h + (Q : ℚ) * h) w h))
      = P.toNat * Q.toNat := by
    rw [List.countP_flatMap]
    have hfun : ((List.countP (cellIsFull ((i : ℚ) * w)
        ((i : ℚ) * w + (P : ℚ) * w) ((j : ℚ) * h)
        ((j : ℚ) * h + (Q : ℚ) * h) w h))
          ∘ fun gy => (intRange (i - 1) (i + P + 2)).map
            fun gx => (gx, gy))
        = fun gy => if decide (j ≤ gy ∧ gy < j + Q) then P.toNat
            else 0 := by
      funext gy
      show List.countP _ ((intRange (i - 1) (i + P + 2)).map
        fun gx => (gx, gy)) = _
      rw [List.countP_map]
      have hpt : ((cellIsFull ((i : ℚ) * w) ((i : ℚ) * w + (P : ℚ) * w)
          ((j : ℚ) * h) ((j : ℚ) * h + (Q : ℚ) * h) w h)
            ∘ fun gx : ℤ => (gx, gy))
          = fun gx : ℤ => (decide (i ≤ gx ∧ gx < i + P)
              && decide (j ≤ gy ∧ gy < j + Q)) := by
        funext gx
        exact cellIsFull_band w h hw hh i P j Q gx gy
      rw [hpt, countP_and_const,
        countP_intRange_band (i - 1) (i + P + 2) i (i + P) (by omega)
          (by omega)]
      by_cases hby : j ≤ gy ∧ gy < j + Q
      · simp only [decide_eq_true hby, if_true, ite_true]
        congr 1
        omega
      · simp only [decide_eq_false hby, Bool.false_eq_true, if_false,
          ite_false]
    rw [hfun, sum_map_ite_countP,
      countP_intRange_band (j - 1) (j + Q + 2) j (j + Q) (by omega)
        (by omega)]
    congr 1
    omega
  simp only [hpart, hcount]
  have : ((P.toNat * Q.toNat : ℕ) : ℤ) = P * Q := by
    push_cast
    rw [Int.toNat_of_nonneg (by omega), Int.toNat_of_nonneg (by omega)]
  rw [this]

/-- C7 witness: the 2 x 1 cell rectangle (0,0)-(10,3) on a 5 m x 3 m
grid at 1 px/m: two full cells and no partial cells. -/
theorem rect_full_coverage_witness :
    ((1:ℤ) ≤ 2 ∧ (1:ℤ) ≤ 1 ∧ (0:ℚ) < 5 * 1 ∧ (0:ℚ) < 3 * 1) ∧
    (compute_grid_coverage_rect 0 0 10 3 5 3 1).map
        (fun c => ((c.full_count : ℤ), c.partial_details))
      = .ok (2, ([] : List PartialCell)) := by
  have h := rect_full_coverage 5 3 1 0 0 2 1 (by decide) (by decide)
    (by decide) (by decide)
  exact ⟨⟨by decide, by decide, by decide, by decide⟩, h⟩

/-- C10: whenever a post estimator returns a result, both on the
rectangular fast path and on the per-row scan variant, the total low-post
count is at least the total tall-post count: per row or span the low count
n_full + 1 dominates the tall count n_full plus a half-module bonus of at
most 1, and row counts are nonnegative multipliers. -/
theorem posts_low_ge_tall (len : Point → Point → ℚ)
    (spanOracle : ℚ → List ℚ) (pts pts2 : List Point)
    (grid_w_m grid_h_m scale_factor gw2 gh2 sc2 : ℚ)
    (r : PostResult) (r2 : PerRowPostResult)
    (h1 : estimate_triangle_posts_3x5_with_sides len pts grid_w_m grid_h_m
          scale_factor = some r)
    (h2 : estimate_triangle_posts_3x5_with_sides_per_row len spanOracle
          pts2 gw2 gh2 sc2 = some r2) :
    r.total_tall_posts ≤ r.total_low_posts ∧
    r2.total_tall_posts ≤ r2.total_low_posts := by
  constructor
  · unfold estimate_triangle_posts_3x5_with_sides at h1
    by_cases h3 : pts.length < 3
    · simp [h3] at h1
    · simp only [h3, if_false, ite_false] at h1
      by_cases hg : (group_facade_segments len pts).north.isEmpty
          || (group_facade_segments len pts).south.isEmpty
      · simp [hg] at h1
      · simp only [hg, Bool.false_eq_true, if_false, ite_false] at h1
        by_cases hw : grid_w_m * scale_factor ≤ 0
            ∨ grid_h_m * scale_factor ≤ 0
        · simp [hw] at h1
        · simp only [hw, if_false, ite_false] at h1
          cases h1
          dsimp only
          apply mul_le_mul_of_nonneg_right
          · split <;> omega
          · exact add_nonneg (le_max_left 0 _) zero_le_one
  · unfold estimate_triangle_posts_3x5_with_sides_per_row at h2
    by_cases h3 : pts2.length < 3
    · simp [h3] at h2
    · simp only [h3, if_false, ite_false] at h2
      by_cases hg : (group_facade_segments len pts2).north.isEmpty
          || (group_facade_segments len pts2).south.isEmpty
      · simp [hg] at h2
      · simp only [hg, Bool.false_eq_true, if_false, ite_false] at h2
        by_cases hw : gw2 * sc2 ≤ 0 ∨ gh2 * sc2 ≤ 0
        · simp [hw] at h2
        · simp only [hw, if_false, ite_false] at h2
          cases h2
          dsimp only
          exact foldl_rowStep_snd_le_fst spanOracle _ _ _ _ (le_refl 0)

/-- C10 witness: both variants on the 4 x 2 rectangle with a 2 m x 3 m
grid (one span of length 4 per row): fast path gives 2 rows of 3 low and
2 tall posts, per-row scan the same via the constant span oracle. -/
theorem posts_low_ge_tall_witness :
    (estimate_triangle_posts_3x5_with_sides taxiLen demoSquare 2 3 1
      = some { grid_w_m := 2, grid_h_m := 3, scale_factor := 1, rows := 1,
               full_triangles_per_row := 2,
               has_half_triangle_per_row := false, low_posts_per_row := 3,
               tall_posts_per_row := 2, total_low_posts := 3,
               total_tall_posts := 2, north_width_m := 4, depth_m := 2 } ∧
     estimate_triangle_posts_3x5_with_sides_per_row taxiLen (fun _ => [4])
        demoSquare 2 3 1
      = some { grid_w_m := 2, grid_h_m := 3, scale_factor := 1, rows := 1,
               total_low_posts := 3, total_tall_posts := 2,
               north_width_m := 4, depth_m := 2 }) ∧
    ((2:ℤ) ≤ 3 ∧ (2:ℤ) ≤ 3) := by
  have e1 : estimate_triangle_posts_3x5_with_sides taxiLen demoSquare 2 3 1
      = some { grid_w_m := 2, grid_h_m := 3, scale_factor := 1, rows := 1,
               full_triangles_per_row := 2,
               has_half_triangle_per_row := false, low_posts_per_row := 3,
               tall_posts_per_row := 2, total_low_posts := 3,
               total_tall_posts := 2, north_width_m := 4,
               depth_m := 2 } := by decide
  have e2 : estimate_triangle_posts_3x5_with_sides_per_row taxiLen
      (fun _ => [4]) demoSquare 2 3 1
      = some { grid_w_m := 2, grid_h_m := 3, scale_factor := 1, rows := 1,
               total_low_posts := 3, total_tall_posts := 2,
               north_width_m := 4, depth_m := 2 } := by decide
  exact ⟨⟨e1, e2⟩,
    posts_low_ge_tall taxiLen (fun _ => [4]) demoSquare demoSquare
      2 3 1 2 3 1 _ _ e1 e2⟩

end Greenhouse
